import Mathlib

/-!
Verification of the property-search normalization and resilience layer of the
dhakahome-web server (package internal/http, file router.go).

The Go code is shallowly embedded:

* Go strings are lists of characters (GoString := List Char).  The Go standard
  library helpers used by the code (strings.TrimSpace, strings.ToLower,
  strings.Contains, strings.Split, strconv.Atoi, strconv.ParseFloat, ...) are
  re-defined here over that representation.  Unicode-specific behaviour
  (non-ASCII case folding, exotic whitespace code points) is modelled at the
  ASCII level, which is exact for every string constant appearing in the code.
* Go float64 values are modelled as exact rationals; the float rounding that
  Go performs is idealized away.  Every concrete number appearing in the
  program (prices, pagination counts, coordinates) is far inside the range
  where float64 arithmetic used by the code is exact.
* Go machine integers are modelled as ℤ.  strconv.Atoi keeps its int64 range
  check, so every integer entering the program is within int64 range, and the
  arithmetic performed on them (pagination with a dataset of 23 records) stays
  far from overflow.
* url.Values is modelled by a structure with one field per key that the
  embedded functions read; url.Values.Get returns "" for a missing key, so an
  absent key and an empty value are identified, exactly as in the Go code.
* Network interaction is modelled by an outcome oracle: each client method
  takes the outcome of its upstream HTTP call (transport error, a status code
  together with the decode result of the body) as an explicit argument.
-/

namespace DhakaHome

/-- Go strings, modelled as lists of characters. -/
abbrev GoString := List Char

/-- Embeds a Lean string literal as a GoString. -/
def str (s : String) : GoString := s.data

/-- unicode.IsSpace for the code points relevant here (ASCII whitespace plus
NEL and NBSP); models the predicate used by strings.TrimSpace and
strings.Fields. -/
def goIsSpace (c : Char) : Bool :=
  c = ' ' || c = '\t' || c = '\n' || c = '\x0b' || c = '\x0c' || c = '\r' ||
  c.val = 133 || c.val = 160

/-- strings.TrimSpace. -/
def goTrim (s : GoString) : GoString :=
  ((s.dropWhile goIsSpace).reverse.dropWhile goIsSpace).reverse

/-- unicode.ToLower / strings.ToLower at the character level (ASCII). -/
def goLowerChar (c : Char) : Char :=
  if 'A' ≤ c ∧ c ≤ 'Z' then Char.ofNat (c.toNat + 32) else c

/-- unicode.ToUpper at the character level (ASCII). -/
def goUpperChar (c : Char) : Char :=
  if 'a' ≤ c ∧ c ≤ 'z' then Char.ofNat (c.toNat - 32) else c

/-- strings.ToLower. -/
def goLower (s : GoString) : GoString := s.map goLowerChar

/-- strings.EqualFold (ASCII simple folding). -/
def goEqualFold (a b : GoString) : Bool := goLower a == goLower b

/-- strings.HasPrefix: does s start with pat? -/
def goStartsWith : GoString → GoString → Bool
  | _, [] => true
  | [], _ :: _ => false
  | c :: s, d :: t => c == d && goStartsWith s t

/-- strings.Contains: does s contain pat as a contiguous substring? -/
def goHasSub : GoString → GoString → Bool
  | [], pat => pat == []
  | c :: rest, pat => goStartsWith (c :: rest) pat || goHasSub rest pat

/-- Worker for strings.Split; the fuel is an upper bound on the number of
steps and is always sufficient at the call site. -/
def goSplitSub (sep : GoString) : Nat → GoString → GoString → List GoString
  | _, [], cur => [cur.reverse]
  | 0, s, cur => [cur.reverse ++ s]
  | n + 1, c :: rest, cur =>
    if goStartsWith (c :: rest) sep then
      cur.reverse :: goSplitSub sep n ((c :: rest).drop sep.length) []
    else
      goSplitSub sep n rest (c :: cur)

/-- strings.Split (this code base only splits on non-empty separators). -/
def goSplitOn (s sep : GoString) : List GoString :=
  if sep = [] then [s] else goSplitSub sep (s.length + 1) s []

/-- Worker for strings.Fields, carrying the current word reversed. -/
def goFieldsAux : GoString → GoString → List GoString
  | [], cur => if cur = [] then [] else [cur.reverse]
  | c :: rest, cur =>
    if goIsSpace c then
      if cur = [] then goFieldsAux rest [] else cur.reverse :: goFieldsAux rest []
    else goFieldsAux rest (c :: cur)

/-- strings.Fields: split around runs of whitespace, dropping empties. -/
def goFields (s : GoString) : List GoString := goFieldsAux s []

/-- strings.Join / List.intercalate. -/
def goJoin (xs : List GoString) (sep : GoString) : GoString :=
  List.intercalate sep xs

/-- strings.ReplaceAll (old is non-empty at every call site). -/
def goReplaceAll (s old new : GoString) : GoString :=
  goJoin (goSplitOn s old) new

/-- Is c an ASCII decimal digit?  unicode.IsDigit also accepts non-ASCII
digits, but every use in the code immediately re-parses the single character
with strconv.Atoi, which only accepts ASCII, so the composite behaviour is
exactly this predicate. -/
def isAsciiDigit (c : Char) : Bool := '0' ≤ c && c ≤ '9'

/-- Numeric value of an ASCII digit. -/
def digitVal (c : Char) : ℕ := c.toNat - 48

/-- Value of a most-significant-first ASCII digit string. -/
def digitsToNat (ds : GoString) : ℕ :=
  ds.foldl (fun a c => a * 10 + digitVal c) 0

/-- ASCII digit character of a value below 10. -/
def digitChar (n : ℕ) : Char := Char.ofNat (48 + n)

/-- Decimal digit string of a natural number (no leading zeros; 0 is "0"). -/
def natDigits (n : ℕ) : GoString :=
  (Nat.toDigits 10 n)

/-- strconv.Itoa on ℤ. -/
def goItoa (v : ℤ) : GoString :=
  if v < 0 then '-' :: natDigits v.natAbs else natDigits v.natAbs

/-- Strips an optional leading sign; returns (isNegative, rest). -/
def stripSign : GoString → Bool × GoString
  | '-' :: t => (true, t)
  | '+' :: t => (false, t)
  | t => (false, t)

/-- strconv.Atoi: optional sign, one or more ASCII digits, int64 range check.
Anything else is a parse error (modelled as none). -/
def goAtoi (s : GoString) : Option ℤ :=
  match s with
  | [] => none
  | _ =>
    let p := stripSign s
    if p.2 = [] ∨ ¬ p.2.all isAsciiDigit then none
    else
      let n : ℤ := (digitsToNat p.2 : ℤ)
      let v : ℤ := if p.1 then -n else n
      if v < -(2 ^ 63) ∨ 2 ^ 63 - 1 < v then none else some v

/-- Go float64 values as they occur in this program.  Every float the code
manipulates is parsed from or written as a decimal numeral and is only
compared, never combined arithmetically, so it is modelled exactly as the
decimal rational num / 10 ^ exp with an integer mantissa.  float64 rounding
is idealized away (exact far beyond every constant in the program). -/
structure GoFloat where
  num : ℤ
  exp : ℕ
deriving DecidableEq

instance : OfNat GoFloat n := ⟨⟨n, 0⟩⟩

/-- Exact float comparison a < b (cross multiplication). -/
def GoFloat.blt (a b : GoFloat) : Bool :=
  a.num * 10 ^ b.exp < b.num * 10 ^ a.exp

/-- Exact float comparison a ≤ b. -/
def GoFloat.ble (a b : GoFloat) : Bool :=
  a.num * 10 ^ b.exp ≤ b.num * 10 ^ a.exp

/-- Go comparison of a float with literal 0. -/
def GoFloat.isZero (a : GoFloat) : Bool := a.num = 0

/-- Conversion float64(n) of an integer. -/
def GoFloat.ofInt (n : ℤ) : GoFloat := ⟨n, 0⟩

/-- strconv.ParseFloat for plain decimal syntax: optional sign, digits with an
optional fractional part (at least one digit overall), optional decimal
exponent.  The inf/nan/hex spellings accepted by Go are modelled as parse
errors; they never reach a branch any claim depends on. -/
def goParseFloat (s : GoString) : Option GoFloat :=
  let p := stripSign s
  let intPart := p.2.takeWhile isAsciiDigit
  let afterInt := p.2.dropWhile isAsciiDigit
  let frac : GoString × GoString :=
    match afterInt with
    | '.' :: t => (t.takeWhile isAsciiDigit, t.dropWhile isAsciiDigit)
    | t => ([], t)
  if intPart = [] ∧ frac.1 = [] then none
  else
    let expo : Option ℤ :=
      match frac.2 with
      | [] => some 0
      | 'e' :: t =>
        let q := stripSign t
        if q.2 = [] ∨ ¬ q.2.all isAsciiDigit then none
        else some (if q.1 then -(digitsToNat q.2 : ℤ) else (digitsToNat q.2 : ℤ))
      | 'E' :: t =>
        let q := stripSign t
        if q.2 = [] ∨ ¬ q.2.all isAsciiDigit then none
        else some (if q.1 then -(digitsToNat q.2 : ℤ) else (digitsToNat q.2 : ℤ))
      | _ => none
    match expo with
    | none => none
    | some e =>
      let mantissa : ℤ :=
        if p.1 then -(digitsToNat (intPart ++ frac.1) : ℤ)
        else (digitsToNat (intPart ++ frac.1) : ℤ)
      let e10 : ℤ := e - frac.1.length
      if 0 ≤ e10 then some ⟨mantissa * 10 ^ e10.toNat, 0⟩
      else some ⟨mantissa, (-e10).toNat⟩

/-- strconv.ParseBool. -/
def goParseBool (s : GoString) : Option Bool :=
  if s = str "1" ∨ s = str "t" ∨ s = str "T" ∨ s = str "TRUE" ∨
     s = str "true" ∨ s = str "True" then some true
  else if s = str "0" ∨ s = str "f" ∨ s = str "F" ∨ s = str "FALSE" ∨
     s = str "false" ∨ s = str "False" then some false
  else none

/-- Left-pads a digit string with zeros to the given length. -/
def padZeros (k : ℕ) (ds : GoString) : GoString :=
  List.replicate (k - ds.length) '0' ++ ds

/-- Strips trailing decimal zeros from a mantissa/exponent pair (fuel-bounded
by the exponent). -/
def canonFloatAux : ℕ → ℤ → ℕ → ℤ × ℕ
  | _, n, 0 => (n, 0)
  | 0, n, e => (n, e)
  | f + 1, n, e + 1 => if n % 10 = 0 then canonFloatAux f (n / 10) e else (n, e + 1)

/-- strconv.FormatFloat(v, 'f', -1, 64) for the decimal values the program
actually formats (they all come from parsing decimal input): the minimal
decimal form, with a dot only when a fractional part remains. -/
def formatFloatF (v : GoFloat) : GoString :=
  let c := canonFloatAux v.exp v.num v.exp
  let sign : GoString := if c.1 < 0 then ['-'] else []
  let m := c.1.natAbs
  if c.2 = 0 then sign ++ natDigits m
  else sign ++ natDigits (m / 10 ^ c.2) ++ '.' :: padZeros c.2 (natDigits (m % 10 ^ c.2))

/-- The url.Values keys read by buildAssetSearchParams and by the mock search
engine.  url.Values.Get returns "" for a missing key, so a field holding []
models an absent key; keys the embedded code never reads cannot influence its
behaviour and are not modelled. -/
structure Vals where
  page : GoString := []
  limit : GoString := []
  status : GoString := []
  listing_type : GoString := []
  listingType : GoString := []
  q : GoString := []
  location : GoString := []
  area : GoString := []
  neighborhood : GoString := []
  types : GoString := []
  type : GoString := []
  price_max : GoString := []
  maxPrice : GoString := []
  price_min : GoString := []
  minPrice : GoString := []
  city : GoString := []
  bedrooms : GoString := []
  bathrooms : GoString := []
  parking : GoString := []
  serviced : GoString := []
  shared_room : GoString := []
  sharedRoom : GoString := []
  area_min : GoString := []
  area_max : GoString := []
  furnished : GoString := []
  subunit_type : GoString := []
  exclude_leased : GoString := []
  sort_by : GoString := []
  order : GoString := []
deriving DecidableEq

/-- isAnyValue: is the value the literal token "any", case-insensitively,
after trimming? -/
def isAnyValue (v : GoString) : Bool := goEqualFold (goTrim v) (str "any")

/-- cleanAnyValue: trim, and map the "any" token to absent. -/
def cleanAnyValue (v : GoString) : GoString :=
  let t := goTrim v
  if isAnyValue t then [] else t

/-- firstNonEmpty (variadic in Go, a list here): the first value whose
trimmed form is non-empty, returned trimmed. -/
def firstNonEmpty : List GoString → GoString
  | [] => []
  | v :: rest => if goTrim v ≠ [] then goTrim v else firstNonEmpty rest

/-- const defaultStatusFilter. -/
def defaultStatusFilter : GoString := str "listed_rental,listed_sale"

/-- normalizeListingType. -/
def normalizeListingType (v : GoString) : GoString :=
  let clean := goTrim (goLower v)
  if clean = [] ∨ clean = str "both" then []
  else if clean = str "rent" ∨ clean = str "rental" ∨ clean = str "listed_rental" ∨
          clean = str "lease" ∨ clean = str "to-let" ∨ clean = str "to_let" ∨
          clean = str "tolet" then str "listed_rental"
  else if clean = str "sale" ∨ clean = str "sell" ∨ clean = str "listed_sale" ∨
          clean = str "for_sale" then str "listed_sale"
  else clean

/-- titleize: replace underscores by spaces, trim, and capitalize each word
(first rune upper, rest lower). -/
def titleize (input : GoString) : GoString :=
  let clean := goTrim (goReplaceAll input (str "_") (str " "))
  if clean = [] then []
  else
    goJoin
      ((goFields clean).map fun w =>
        match w with
        | [] => []
        | c :: rest => goUpperChar c :: rest.map goLowerChar)
      (str " ")

/-- normalizeTypeValue. -/
def normalizeTypeValue (v : GoString) : GoString :=
  let clean := goTrim (goLower v)
  if clean = [] then []
  else if clean = str "any" then []
  else if clean = str "residential" then str "Residential"
  else if clean = str "commercial" then str "Commercial"
  else if clean = str "land" then str "Plot"
  else titleize clean

/-- parsePriceField: keep digits and dots (tolerating currency symbols and
separators), then parse; values that fail to parse or are ≤ 0 are discarded. -/
def parsePriceField (raw : GoString) : Option GoFloat :=
  if raw = [] then none
  else
    let b := raw.filter fun r => isAsciiDigit r || r = '.'
    if b = [] then none
    else
      match goParseFloat b with
      | none => none
      | some val => if val.ble 0 then none else some val

/-!
buildAssetSearchParams sets keys sequentially on a url.Values; the final
value each key holds is given by one function per key below, each mirroring
the source block that computes it. -/

/-- The page key: default 1 when empty, literally 0, or non-numeric. -/
def pageParam (qv : Vals) : GoString :=
  if goAtoi (goTrim qv.page) = none ∨ goTrim qv.page = [] ∨ goTrim qv.page = str "0"
  then str "1" else goTrim qv.page

/-- The limit key: default 9 when empty or non-numeric (a literal 0 is kept,
unlike page). -/
def limitParam (qv : Vals) : GoString :=
  if goAtoi (goTrim qv.limit) = none ∨ goTrim qv.limit = []
  then str "9" else goTrim qv.limit

/-- The status key: the cleaned status, else the normalized listing-type
alias when that is non-empty, else the default filter. -/
def statusParam (qv : Vals) : GoString :=
  if cleanAnyValue qv.status = [] then
    if normalizeListingType (cleanAnyValue (firstNonEmpty [qv.listing_type, qv.listingType])) ≠ []
    then normalizeListingType (cleanAnyValue (firstNonEmpty [qv.listing_type, qv.listingType]))
    else defaultStatusFilter
  else cleanAnyValue qv.status

/-- The q key: cleaned q, else location, else area. -/
def qParam (qv : Vals) : GoString :=
  if cleanAnyValue qv.q ≠ [] then cleanAnyValue qv.q
  else if cleanAnyValue qv.location ≠ [] then cleanAnyValue qv.location
  else if cleanAnyValue qv.area ≠ [] then cleanAnyValue qv.area
  else []

/-- The neighborhood key: cleaned neighborhood, else area. -/
def neighborhoodParam (qv : Vals) : GoString :=
  if cleanAnyValue qv.neighborhood ≠ [] then cleanAnyValue qv.neighborhood
  else cleanAnyValue qv.area

/-- The types key: cleaned types verbatim, else the normalized single type
alias. -/
def typesParam (qv : Vals) : GoString :=
  if cleanAnyValue qv.types ≠ [] then cleanAnyValue qv.types
  else normalizeTypeValue (cleanAnyValue qv.type)

/-- Formats a parsed price, keeping the raw value on parse failure. -/
def priceFieldOrRaw (v : GoString) : GoString :=
  match parsePriceField v with
  | some parsed => formatFloatF parsed
  | none => v

/-- Formats a parsed price, absent on parse failure. -/
def priceFieldFormatted (v : GoString) : GoString :=
  match parsePriceField v with
  | some v2 => formatFloatF v2
  | none => []

/-- The price_max key: the cleaned price_max (formatted when parseable),
else the parsed maxPrice alias. -/
def priceMaxParam (qv : Vals) : GoString :=
  if cleanAnyValue qv.price_max ≠ [] then priceFieldOrRaw (cleanAnyValue qv.price_max)
  else priceFieldFormatted qv.maxPrice

/-- The price_min key.  The trailing copy loop of the source includes
price_min again, overwriting the formatted value with the cleaned raw value
whenever the latter is non-empty (it does not include price_max); the final
value is therefore the cleaned raw price_min when supplied, else the parsed
minPrice alias. -/
def priceMinParam (qv : Vals) : GoString :=
  if cleanAnyValue qv.price_min ≠ [] then cleanAnyValue qv.price_min
  else priceFieldFormatted qv.minPrice

/-- buildAssetSearchParams: the Parameter Normalizer.  Maps the raw query to
the canonical parameter set sent upstream (and fed to the mock engine).  The
fields listing_type, listingType, type, area, maxPrice, minPrice and
sharedRoom are never written, so they remain absent in the result. -/
def buildAssetSearchParams (qv : Vals) : Vals :=
  { page := pageParam qv
    limit := limitParam qv
    status := statusParam qv
    q := qParam qv
    location := cleanAnyValue qv.location
    neighborhood := neighborhoodParam qv
    types := typesParam qv
    price_max := priceMaxParam qv
    price_min := priceMinParam qv
    city := cleanAnyValue qv.city
    bedrooms := cleanAnyValue qv.bedrooms
    bathrooms := cleanAnyValue qv.bathrooms
    parking := cleanAnyValue qv.parking
    serviced := cleanAnyValue qv.serviced
    shared_room := cleanAnyValue qv.shared_room
    area_min := cleanAnyValue qv.area_min
    area_max := cleanAnyValue qv.area_max
    furnished := cleanAnyValue qv.furnished
    subunit_type := cleanAnyValue qv.subunit_type
    exclude_leased := cleanAnyValue qv.exclude_leased
    sort_by := cleanAnyValue qv.sort_by
    order := cleanAnyValue qv.order }

/-- The normalized listing record (struct Property).  Zero values mirror Go
zero values: empty string, 0, false, nil slice. -/
structure Property where
  id : GoString := []
  title : GoString := []
  address : GoString := []
  description : GoString := []
  price : GoFloat := 0
  currency : GoString := []
  type : GoString := []
  listingType : GoString := []
  buildYear : ℤ := 0
  images : List GoString := []
  badges : List GoString := []
  amenities : List GoString := []
  listingYear : ℤ := 0
  listingDate : GoString := []
  bedrooms : ℤ := 0
  bathrooms : ℤ := 0
  area : ℤ := 0
  parking : ℤ := 0
  gallery : List GoString := []
  hasImages : Bool := false
  isShortlisted : Bool := false
  shortlistID : GoString := []
  contactPhone : GoString := []
  contactEmail : GoString := []
  latitude : GoFloat := 0
  longitude : GoFloat := 0
deriving DecidableEq

/-- A page of results (struct PropertyList). -/
structure PropertyList where
  items : List Property
  page : ℤ
  pages : ℤ
  total : ℤ
deriving DecidableEq

/-- struct NeighborhoodStat. -/
structure NeighborhoodStat where
  neighborhood : GoString
  city : GoString
  count : ℤ
deriving DecidableEq

/-- contains: case-insensitive substring test. -/
def contains (s substr : GoString) : Bool :=
  goHasSub (goLower s) (goLower substr)

/-- containsAny: does any element of slice equal or contain (lowercased) one
of vals? -/
def containsAny (slice : List GoString) (vals : List GoString) : Bool :=
  vals.any fun val =>
    let valLower := goLower val
    slice.any fun s =>
      let sLower := goLower s
      sLower == valLower || goHasSub sLower valLower

/-- parseIntParam: integer parameter with a default; empty, unparseable and
negative values yield the default (0 notably does not). -/
def parseIntParam (s : GoString) (defaultVal : ℤ) : ℤ :=
  if s = [] then defaultVal
  else
    match goAtoi (goTrim s) with
    | none => defaultVal
    | some val => if val < 0 then defaultVal else val

/-- parseFloatParam: float parameter with a default. -/
def parseFloatParam (s : GoString) (defaultVal : GoFloat) : GoFloat :=
  if s = [] then defaultVal
  else
    match goParseFloat (goTrim s) with
    | none => defaultVal
    | some val => if val.blt 0 then defaultVal else val

/-- normalizeMockStatus: backend status value to display label. -/
def normalizeMockStatus (status : GoString) : GoString :=
  let statusLower := goLower (goTrim status)
  if statusLower = str "listed_rental" then str "To-let"
  else if statusLower = str "listed_sale" then str "For Sale"
  else if statusLower = str "ready_for_listing" ∨ statusLower = str "active" ∨
          statusLower = str "available" then str "To-let"
  else if statusLower = str "for_sale" ∨ statusLower = str "sale" then str "For Sale"
  else if statusLower = str "leased" ∨ statusLower = str "rented" then str "Leased"
  else titleize statusLower

/-- Text-search block of matchesMockFilters. -/
def mockFilterText (prop : Property) (q : Vals) : Bool :=
  let searchQuery := cleanAnyValue q.q
  if searchQuery ≠ [] then
    let searchLower := goLower searchQuery
    contains prop.title searchLower || contains prop.address searchLower ||
      containsAny prop.badges [searchLower]
  else true

/-- Location block of matchesMockFilters. -/
def mockFilterLocation (prop : Property) (q : Vals) : Bool :=
  let location := cleanAnyValue q.location
  if location ≠ [] then contains prop.address location || contains prop.title location
  else true

/-- area block of matchesMockFilters. -/
def mockFilterArea (prop : Property) (q : Vals) : Bool :=
  let area := cleanAnyValue q.area
  if area ≠ [] then contains prop.address area || contains prop.title area
  else true

/-- neighborhood block of matchesMockFilters. -/
def mockFilterNeighborhood (prop : Property) (q : Vals) : Bool :=
  let neighborhood := cleanAnyValue q.neighborhood
  if neighborhood ≠ [] then
    contains prop.address neighborhood || contains prop.title neighborhood
  else true

/-- types (comma-separated, OR) block of matchesMockFilters. -/
def mockFilterTypes (prop : Property) (q : Vals) : Bool :=
  let types := cleanAnyValue q.types
  if types ≠ [] then
    (goSplitOn types (str ",")).any fun t => containsAny prop.badges [goTrim t]
  else true

/-- type (single value) block of matchesMockFilters. -/
def mockFilterType (prop : Property) (q : Vals) : Bool :=
  let propertyType := cleanAnyValue q.type
  if propertyType ≠ [] then containsAny prop.badges [propertyType]
  else true

/-- status block of matchesMockFilters. -/
def mockFilterStatus (prop : Property) (q : Vals) : Bool :=
  let status := cleanAnyValue q.status
  if status ≠ [] then
    (goSplitOn status (str ",")).any fun s =>
      containsAny prop.badges [normalizeMockStatus (goTrim s)]
  else true

/-- price_min block of matchesMockFilters. -/
def mockFilterPriceMin (prop : Property) (q : Vals) : Bool :=
  let minPrice := parseFloatParam q.price_min 0
  if GoFloat.blt 0 minPrice then
    (if prop.price.blt minPrice then false else true)
  else true

/-- price_max block of matchesMockFilters. -/
def mockFilterPriceMax (prop : Property) (q : Vals) : Bool :=
  let maxPrice := parseFloatParam q.price_max 0
  if GoFloat.blt 0 maxPrice then
    (if maxPrice.blt prop.price then false else true)
  else true

/-- parking block of matchesMockFilters: exact match below 3, at-least from 3
upward (the two at-least branches of the source coincide). -/
def mockFilterParking (prop : Property) (q : Vals) : Bool :=
  let parking := parseIntParam q.parking (-1)
  if parking ≥ 0 then
    if parking ≥ 10 then (if prop.parking < parking then false else true)
    else if parking ≥ 3 then (if prop.parking < parking then false else true)
    else (if prop.parking ≠ parking then false else true)
  else true

/-- area_min block of matchesMockFilters. -/
def mockFilterAreaMin (prop : Property) (q : Vals) : Bool :=
  let areaMin := parseFloatParam q.area_min 0
  if GoFloat.blt 0 areaMin ∧ prop.area > 0 then
    (if (GoFloat.ofInt prop.area).blt areaMin then false else true)
  else true

/-- area_max block of matchesMockFilters. -/
def mockFilterAreaMax (prop : Property) (q : Vals) : Bool :=
  let areaMax := parseFloatParam q.area_max 0
  if GoFloat.blt 0 areaMax ∧ prop.area > 0 then
    (if areaMax.blt (GoFloat.ofInt prop.area) then false else true)
  else true

/-- bedrooms block of matchesMockFilters (at-least semantics). -/
def mockFilterBedrooms (prop : Property) (q : Vals) : Bool :=
  let bedrooms := parseIntParam q.bedrooms 0
  if bedrooms > 0 then (if prop.bedrooms < bedrooms then false else true) else true

/-- bathrooms block of matchesMockFilters (at-least semantics). -/
def mockFilterBathrooms (prop : Property) (q : Vals) : Bool :=
  let bathrooms := parseIntParam q.bathrooms 0
  if bathrooms > 0 then (if prop.bathrooms < bathrooms then false else true) else true

/-- furnished block of matchesMockFilters. -/
def mockFilterFurnished (prop : Property) (q : Vals) : Bool :=
  let furnished := cleanAnyValue q.furnished
  if furnished ≠ [] then
    let furnishedLower := goLower furnished
    if furnishedLower = str "yes" ∨ furnishedLower = str "true" ∨
       furnishedLower = str "1" then
      containsAny prop.badges [str "Furnished"]
    else if furnishedLower = str "no" ∨ furnishedLower = str "false" ∨
       furnishedLower = str "0" then
      !(containsAny prop.badges [str "Furnished"])
    else true
  else true

/-- serviced block of matchesMockFilters (raw value, not lowercased). -/
def mockFilterServiced (prop : Property) (q : Vals) : Bool :=
  let serviced := cleanAnyValue q.serviced
  if serviced ≠ [] then
    let isServiced := containsAny prop.badges [str "Serviced"] ||
      contains prop.title (str "serviced")
    if serviced = str "true" ∨ serviced = str "yes" ∨ serviced = str "1" then
      isServiced
    else if serviced = str "false" ∨ serviced = str "no" ∨ serviced = str "0" then
      !isServiced
    else true
  else true

/-- shared_room block of matchesMockFilters. -/
def mockFilterShared (prop : Property) (q : Vals) : Bool :=
  let shared := cleanAnyValue (firstNonEmpty [q.shared_room, q.sharedRoom])
  if shared ≠ [] then
    let isShared := contains prop.title (str "shared") ||
      containsAny prop.badges [str "Shared", str "Shared Room"]
    if shared = str "true" ∨ shared = str "yes" ∨ shared = str "1" then
      isShared
    else if shared = str "false" ∨ shared = str "no" ∨ shared = str "0" then
      !isShared
    else true
  else true

/-- matchesMockFilters: the source is a chain of guarded early returns of
false; it equals the conjunction of its blocks in order. -/
def matchesMockFilters (prop : Property) (q : Vals) : Bool :=
  mockFilterText prop q && mockFilterLocation prop q && mockFilterArea prop q &&
  mockFilterNeighborhood prop q && mockFilterTypes prop q && mockFilterType prop q &&
  mockFilterStatus prop q && mockFilterPriceMin prop q && mockFilterPriceMax prop q &&
  mockFilterParking prop q && mockFilterAreaMin prop q && mockFilterAreaMax prop q &&
  mockFilterBedrooms prop q && mockFilterBathrooms prop q &&
  mockFilterFurnished prop q && mockFilterServiced prop q && mockFilterShared prop q

/-- int(math.Ceil(float64(total) / float64(limit))).  Exact for 0 ≤ total and
1 ≤ limit within the float64-exact range.  For limit = 0 the Go expression
converts +Inf or NaN to int, which the Go specification leaves
implementation-specific; the amd64 result (minimum int64) is used.  No claim
depends on that branch. -/
def goCeilDivFloat (total limit : ℤ) : ℤ :=
  if limit = 0 then -(2 ^ 63) else (total + limit - 1) / limit

/-- deriveTypeFromBadges. -/
def deriveTypeFromBadges : List GoString → GoString
  | [] => []
  | badge :: rest =>
    let clean := goLower (goTrim badge)
    if clean = str "residential" ∨ clean = str "commercial" ∨
       clean = str "land" ∨ clean = str "plot" then titleize clean
    else deriveTypeFromBadges rest

/-- deriveListingTypeFromBadges. -/
def deriveListingTypeFromBadges : List GoString → GoString
  | [] => []
  | badge :: rest =>
    let clean := goLower (goTrim badge)
    if goHasSub clean (str "sale") then str "For Sale"
    else if goHasSub clean (str "to-let") || goHasSub clean (str "rent") then str "To-let"
    else if goHasSub clean (str "lease") then str "Lease"
    else deriveListingTypeFromBadges rest

/-- defaultAmenities. -/
def defaultAmenities : List GoString :=
  [str "Gas Supply", str "Boundary Wall", str "Kitchen Cabinet",
   str "Power Backup", str "Parking", str "Lift", str "Servant Room",
   str "Furnished"]

/-- approximateAreaCoords.  A Go map iterated with randomized order; listed
here in source order.  No claim depends on the iteration order (at most one
key matches each dataset record). -/
def approximateAreaCoords : List (GoString × GoFloat × GoFloat) :=
  [(str "uttara", ⟨23874219, 6⟩, ⟨90396475, 6⟩),
   (str "gulshan", ⟨23792521, 6⟩, ⟨90414047, 6⟩),
   (str "banani", ⟨23793478, 6⟩, ⟨90404137, 6⟩),
   (str "dhanmondi", ⟨23746105, 6⟩, ⟨90374007, 6⟩),
   (str "mirpur", ⟨23804174, 6⟩, ⟨90353605, 6⟩),
   (str "bashundhara", ⟨23815216, 6⟩, ⟨90423018, 6⟩),
   (str "mohammadpur", ⟨23758726, 6⟩, ⟨90358072, 6⟩),
   (str "mohakhali", ⟨23780195, 6⟩, ⟨90400438, 6⟩),
   (str "baridhara", ⟨23810151, 6⟩, ⟨90422426, 6⟩),
   (str "nikunja", ⟨23826702, 6⟩, ⟨90422935, 6⟩),
   (str "badda", ⟨23780917, 6⟩, ⟨90426642, 6⟩)]

/-- fallbackCoordinates: approximate centroid matched by substring against
address, badges and title. -/
def fallbackCoordinates (prop : Property) : Option (GoFloat × GoFloat) :=
  let haystack :=
    goLower (goJoin [prop.address, goJoin prop.badges (str " "), prop.title] (str " "))
  (approximateAreaCoords.find? fun e => goHasSub haystack e.1).map fun e => e.2

/-- finalizeProperty.  The fields fallbackCoordinates reads (address, badges,
title) are not modified before the coordinate step, so it is applied to the
original record. -/
def finalizeProperty (prop : Property) : Property :=
  let gallery := if prop.gallery = [] ∧ prop.images ≠ [] then prop.images else prop.gallery
  let hasImages := if gallery ≠ [] then true else prop.hasImages
  let images := if prop.images = [] ∧ gallery ≠ [] then gallery else prop.images
  let typ :=
    if prop.type = [] then
      let t := deriveTypeFromBadges prop.badges
      if t ≠ [] then t else prop.type
    else prop.type
  let listingType :=
    if prop.listingType = [] then
      let lt := deriveListingTypeFromBadges prop.badges
      if lt ≠ [] then lt else prop.listingType
    else prop.listingType
  let currency := if prop.currency = [] then str "৳" else prop.currency
  let amenities := if prop.amenities = [] then defaultAmenities else prop.amenities
  let coords :=
    if prop.latitude.isZero ∧ prop.longitude.isZero then
      match fallbackCoordinates prop with
      | some c => c
      | none => (prop.latitude, prop.longitude)
    else (prop.latitude, prop.longitude)
  { prop with
    gallery := gallery
    hasImages := hasImages
    images := images
    type := typ
    listingType := listingType
    currency := currency
    amenities := amenities
    latitude := coords.1
    longitude := coords.2 }

/-- getAllMockProperties: the static mock dataset (23 records), transcribed
field by field; omitted Go fields are zero values. -/
def getAllMockProperties : List Property :=
  [{ id := str "mock-res-uttara-01"
     title := str "Luxury Apartment in Uttara Sec 7"
     address := str "House 12, Road 7, Sector 7, Uttara, Dhaka"
     price := 45000
     currency := str "৳"
     images := [str "/assets/images/mock-properties/db6726f48a0bae50917980327e8ff5eb40ae871e.png"]
     badges := [str "To-let", str "Verified", str "Residential", str "Fully Furnished"]
     buildYear := 2020
     listingDate := str "2024-09-18"
     description := str "Spacious luxury apartment with modern finishes, abundant natural light, and easy access to Uttara\x27s prime conveniences."
     bedrooms := 3, bathrooms := 3, area := 1800, parking := 2 },
   { id := str "mock-res-uttara-02"
     title := str "Modern Family Home Uttara Sec 10"
     address := str "Plot 25, Uttara Sec 10, Dhaka"
     price := 8500000
     currency := str "৳"
     images := [str "/assets/images/mock-properties/8abeccd3fd2f4096a7b4a66a184c5ae36074637a.png"]
     badges := [str "For Sale", str "Verified", str "Residential"]
     buildYear := 2018
     listingDate := str "2024-10-05"
     description := str "Step into this spacious and thoughtfully planned 3-bedroom apartment, ideal for families seeking comfort, convenience, and style. Spanning 1450 square feet, this home features three generously sized bedrooms, each designed to ensure privacy and natural light. The four well-appointed bathrooms, including attached ones, offer added ease for busy households."
     bedrooms := 4, bathrooms := 4, area := 2200, parking := 2 },
   { id := str "mock-res-uttara-03"
     title := str "Cozy Studio Apartment Uttara South"
     address := str "Uttara South, Sector 3, Dhaka"
     price := 18000
     currency := str "৳"
     images := [str "/assets/images/mock-properties/1f002be890c252fab41bc52a14801210d4fa2535.png"]
     badges := [str "To-let", str "Verified", str "Residential", str "Semi-Furnished"]
     buildYear := 2016
     listingDate := str "2024-08-12"
     description := str "Efficient studio with smart layout, ideal for single living close to transport and retail."
     bedrooms := 1, bathrooms := 1, area := 650, parking := 1 },
   { id := str "mock-res-uttara-04"
     title := str "Spacious 4BR Apartment Uttara Sec 12"
     address := str "Road 15, Sector 12, Uttara, Dhaka"
     price := 55000
     currency := str "৳"
     images := [str "/assets/images/mock-properties/2f8fe8dfbde9fb83f633da9c0e8bdff775034700.png"]
     badges := [str "To-let", str "Verified", str "Residential", str "Fully Furnished"]
     buildYear := 2019
     listingDate := str "2024-09-01"
     description := str "Large four-bedroom with attached baths, ready-to-move furnishings, and cross-ventilation."
     bedrooms := 4, bathrooms := 3, area := 2000, parking := 2 },
   { id := str "mock-com-uttara-01"
     title := str "Premium Office Space Uttara Sec 11"
     address := str "Building: Crystal Tower, Sector 11, Uttara, Dhaka"
     price := 120000
     currency := str "৳"
     images := [str "/assets/images/mock-properties/d466fbc3c6a3829176f4bf45c88ed96204288a39.png"]
     badges := [str "To-let", str "Verified", str "Commercial", str "Office Space"]
     buildYear := 2015
     listingDate := str "2024-07-20"
     description := str "Grade-A office floor with open layout, ample light, and parking allocation."
     bedrooms := 0, bathrooms := 2, area := 2500, parking := 3 },
   { id := str "mock-com-uttara-02"
     title := str "Retail Shop Space Uttara Sec 4"
     address := str "Shop 5, Ground Floor, Uttara Sec 4, Dhaka"
     price := 3500000
     currency := str "৳"
     images := [str "/assets/images/mock-properties/8abeccd3fd2f4096a7b4a66a184c5ae36074637a.png"]
     badges := [str "For Sale", str "Verified", str "Commercial", str "Retail"]
     buildYear := 2014
     listingDate := str "2024-06-15"
     description := str "Street-facing retail bay with steady footfall and clear frontage."
     bedrooms := 0, bathrooms := 1, area := 800, parking := 0 },
   { id := str "mock-res-gulshan-01"
     title := str "Elegant Penthouse in Gulshan 2"
     address := str "Road 78, Gulshan 2, Dhaka"
     price := 95000
     currency := str "৳"
     images := [str "/assets/images/mock-properties/db6726f48a0bae50917980327e8ff5eb40ae871e.png"]
     badges := [str "To-let", str "Verified", str "Residential", str "Fully Furnished", str "Luxury"]
     bedrooms := 5, bathrooms := 5, area := 3500, parking := 3 },
   { id := str "mock-res-gulshan-02"
     title := str "Modern 3BR Flat Gulshan 1"
     address := str "House 45, Road 12, Gulshan 1, Dhaka"
     price := 65000
     currency := str "৳"
     images := [str "/assets/images/mock-properties/2f8fe8dfbde9fb83f633da9c0e8bdff775034700.png"]
     badges := [str "To-let", str "Verified", str "Residential", str "Semi-Furnished"]
     bedrooms := 3, bathrooms := 2, area := 1600, parking := 2 },
   { id := str "mock-com-gulshan-01"
     title := str "Corporate Office Gulshan Avenue"
     address := str "Gulshan Avenue, Gulshan 1, Dhaka"
     price := 250000
     currency := str "৳"
     images := [str "/assets/images/mock-properties/d466fbc3c6a3829176f4bf45c88ed96204288a39.png"]
     badges := [str "To-let", str "Verified", str "Commercial", str "Office Space", str "Premium"]
     bedrooms := 0, bathrooms := 4, area := 4000, parking := 5 },
   { id := str "mock-res-banani-01"
     title := str "Luxurious Apartment Banani DOHS"
     address := str "Block C, Road 5, Banani DOHS, Dhaka"
     price := 75000
     currency := str "৳"
     images := [str "/assets/images/mock-properties/1f002be890c252fab41bc52a14801210d4fa2535.png"]
     badges := [str "To-let", str "Verified", str "Residential", str "Fully Furnished"]
     bedrooms := 4, bathrooms := 4, area := 2400, parking := 2 },
   { id := str "mock-res-banani-02"
     title := str "2 Bedroom Apartment in Banani"
     address := str "Road 11, Banani, Dhaka"
     price := 35000
     currency := str "৳"
     images := [str "/assets/images/mock-properties/8abeccd3fd2f4096a7b4a66a184c5ae36074637a.png"]
     badges := [str "To-let", str "Verified", str "Residential"]
     bedrooms := 2, bathrooms := 2, area := 1100, parking := 1 },
   { id := str "mock-res-dhanmondi-01"
     title := str "Beautiful Lake View Flat Dhanmondi"
     address := str "Road 8/A, Dhanmondi, Dhaka"
     price := 55000
     currency := str "৳"
     images := [str "/assets/images/mock-properties/db6726f48a0bae50917980327e8ff5eb40ae871e.png"]
     badges := [str "To-let", str "Verified", str "Residential", str "Lake View"]
     bedrooms := 3, bathrooms := 3, area := 1900, parking := 2 },
   { id := str "mock-res-dhanmondi-02"
     title := str "Spacious Family Apartment Dhanmondi 15"
     address := str "Road 15, Dhanmondi, Dhaka"
     price := 12000000
     currency := str "৳"
     images := [str "/assets/images/mock-properties/2f8fe8dfbde9fb83f633da9c0e8bdff775034700.png"]
     badges := [str "For Sale", str "Verified", str "Residential"]
     bedrooms := 4, bathrooms := 3, area := 2100, parking := 2 },
   { id := str "mock-com-dhanmondi-01"
     title := str "Commercial Space Satmasjid Road"
     address := str "Satmasjid Road, Dhanmondi, Dhaka"
     price := 85000
     currency := str "৳"
     images := [str "/assets/images/mock-properties/d466fbc3c6a3829176f4bf45c88ed96204288a39.png"]
     badges := [str "To-let", str "Verified", str "Commercial", str "Retail"]
     bedrooms := 0, bathrooms := 2, area := 1500, parking := 1 },
   { id := str "mock-res-mirpur-01"
     title := str "Affordable Family Flat Mirpur 10"
     address := str "Road 12, Mirpur 10, Dhaka"
     price := 22000
     currency := str "৳"
     images := [str "/assets/images/mock-properties/1f002be890c252fab41bc52a14801210d4fa2535.png"]
     badges := [str "To-let", str "Verified", str "Residential"]
     bedrooms := 3, bathrooms := 2, area := 1200, parking := 1 },
   { id := str "mock-res-mirpur-02"
     title := str "Budget Friendly 2BR Mirpur 11"
     address := str "Section 11, Mirpur, Dhaka"
     price := 16000
     currency := str "৳"
     images := [str "/assets/images/mock-properties/8abeccd3fd2f4096a7b4a66a184c5ae36074637a.png"]
     badges := [str "To-let", str "Verified", str "Residential"]
     bedrooms := 2, bathrooms := 1, area := 900, parking := 0 },
   { id := str "mock-res-bashundhara-01"
     title := str "Modern Apartment Bashundhara R/A"
     address := str "Block G, Road 5, Bashundhara R/A, Dhaka"
     price := 48000
     currency := str "৳"
     images := [str "/assets/images/mock-properties/db6726f48a0bae50917980327e8ff5eb40ae871e.png"]
     badges := [str "To-let", str "Verified", str "Residential", str "Semi-Furnished"]
     bedrooms := 3, bathrooms := 3, area := 1700, parking := 2 },
   { id := str "mock-res-bashundhara-02"
     title := str "Luxury Villa Bashundhara"
     address := str "Block D, Bashundhara R/A, Dhaka"
     price := 25000000
     currency := str "৳"
     images := [str "/assets/images/mock-properties/2f8fe8dfbde9fb83f633da9c0e8bdff775034700.png"]
     badges := [str "For Sale", str "Verified", str "Residential", str "Luxury"]
     bedrooms := 6, bathrooms := 6, area := 4500, parking := 4 },
   { id := str "mock-res-mohammadpur-01"
     title := str "Comfortable Flat Mohammadpur"
     address := str "Nobodoy Housing, Mohammadpur, Dhaka"
     price := 20000
     currency := str "৳"
     images := [str "/assets/images/mock-properties/1f002be890c252fab41bc52a14801210d4fa2535.png"]
     badges := [str "To-let", str "Verified", str "Residential"]
     bedrooms := 2, bathrooms := 2, area := 1000, parking := 1 },
   { id := str "mock-hostel-01"
     title := str "Student Hostel Near NSU Bashundhara"
     address := str "Near NSU, Bashundhara, Dhaka"
     price := 8000
     currency := str "৳"
     images := [str "/assets/images/mock-properties/8abeccd3fd2f4096a7b4a66a184c5ae36074637a.png"]
     badges := [str "To-let", str "Verified", str "Hostel", str "Shared"]
     bedrooms := 1, bathrooms := 1, area := 250, parking := 0 },
   { id := str "mock-hostel-02"
     title := str "Working Professional Hostel Uttara"
     address := str "Sector 9, Uttara, Dhaka"
     price := 12000
     currency := str "৳"
     images := [str "/assets/images/mock-properties/1f002be890c252fab41bc52a14801210d4fa2535.png"]
     badges := [str "To-let", str "Verified", str "Hostel", str "Furnished"]
     bedrooms := 1, bathrooms := 1, area := 350, parking := 0 },
   { id := str "mock-str-01"
     title := str "Service Apartment Banani (Daily/Monthly)"
     address := str "Road 17, Banani, Dhaka"
     price := 3500
     currency := str "৳"
     images := [str "/assets/images/mock-properties/db6726f48a0bae50917980327e8ff5eb40ae871e.png"]
     badges := [str "To-let", str "Verified", str "Short Term Rental", str "Fully Furnished"]
     bedrooms := 1, bathrooms := 1, area := 550, parking := 0 },
   { id := str "mock-str-02"
     title := str "Serviced Studio Gulshan 2"
     address := str "Road 86, Gulshan 2, Dhaka"
     price := 4500
     currency := str "৳"
     images := [str "/assets/images/mock-properties/2f8fe8dfbde9fb83f633da9c0e8bdff775034700.png"]
     badges := [str "To-let", str "Verified", str "Short Term Rental", str "Luxury"]
     bedrooms := 1, bathrooms := 1, area := 600, parking := 1 }]

/-- The pagination block of getMockSearchResults: page count, page clamping
and slice bounds, returned as (page, pages, start, end). -/
def mockPagination (total page0 limit : ℤ) : ℤ × ℤ × ℤ × ℤ :=
  let pages0 := goCeilDivFloat total limit
  let pages := if pages0 = 0 then 1 else pages0
  let page1 := if page0 < 1 then 1 else page0
  let page := if page1 > pages then pages else page1
  let start0 := (page - 1) * limit
  let end0 := start0 + limit
  let start := if start0 > total then total else start0
  let endIdx := if end0 > total then total else end0
  (page, pages, start, endIdx)

/-- getMockSearchResults: the Mock Fallback Engine.  Filters the static
dataset, computes pagination and returns the finalized page slice.  The Go
slice expression filtered[start:end] is modelled with drop/take; the safety
claim shows the bounds are always in range. -/
def getMockSearchResults (q : Vals) : PropertyList :=
  let page0 := parseIntParam q.page 1
  let limit := parseIntParam q.limit 9
  let filtered := getAllMockProperties.filter fun prop => matchesMockFilters prop q
  let total : ℤ := filtered.length
  let b := mockPagination total page0 limit
  let items := ((filtered.drop b.2.2.1.toNat).take (b.2.2.2 - b.2.2.1).toNat).map finalizeProperty
  { items := items, page := b.1, pages := b.2.1, total := total }

/-- mockCities. -/
def mockCities : List GoString :=
  [str "Dhaka", str "Chittagong", str "Sylhet", str "Khulna", str "Rajshahi"]

/-- mockNeighborhoods. -/
def mockNeighborhoods (city : GoString) : List GoString :=
  let c := goLower (goTrim city)
  if c = str "dhaka" then
    [str "Gulshan", str "Banani", str "Uttara", str "Dhanmondi", str "Bashundhara", str "Mirpur"]
  else if c = str "chittagong" then
    [str "Agrabad", str "Nasirabad", str "Pahartali"]
  else if c = str "sylhet" then
    [str "Zinda Bazar", str "Amberkhana", str "Mirabazar"]
  else if c = str "khulna" then
    [str "Sonadanga", str "Khalishpur", str "Mujgunni"]
  else if c = str "rajshahi" then
    [str "Uttara", str "Boalia", str "Rajpara"]
  else
    [str "Central", str "North", str "South"]

/-- Go byte-wise string comparison (a < b), ASCII-exact. -/
def goStrLt : GoString → GoString → Bool
  | [], [] => false
  | [], _ :: _ => true
  | _ :: _, [] => false
  | a :: as, b :: bs => if a = b then goStrLt as bs else decide (a.val < b.val)

/-- The strict order used by mockTopNeighborhoods: count descending, then
neighborhood name ascending. -/
def statLess (a b : NeighborhoodStat) : Bool :=
  if a.count = b.count then goStrLt a.neighborhood b.neighborhood
  else decide (b.count < a.count)

/-- Insertion into a list sorted by the given strict order. -/
def insertSorted (lt : α → α → Bool) (x : α) : List α → List α
  | [] => [x]
  | y :: ys => if lt x y then x :: y :: ys else y :: insertSorted lt x ys

/-- Insertion sort.  sort.Slice is unstable, but statLess is a strict total
order on the stats produced (names are distinct), so the sorted result is
unique and any sorting algorithm models it. -/
def sortByLess (lt : α → α → Bool) (xs : List α) : List α :=
  xs.foldr (insertSorted lt) []

/-- Keeps the first occurrence of each element (models building a Go map key
set from a list). -/
def dedupKeepFirst : List GoString → List GoString :=
  go []
where
  go (seen : List GoString) : List GoString → List GoString
    | [] => []
    | v :: rest =>
      if seen.contains v then go seen rest else v :: go (v :: seen) rest

/-- mockTopNeighborhoods: per-neighborhood match counts over the mock
dataset, zero counts dropped, sorted by count (desc) then name (asc),
truncated to limit.  The Go map iteration order is randomized, but counts do
not depend on it and the comparator is a strict total order here, so the
output is deterministic. -/
def mockTopNeighborhoods (limit : ℤ) (city : GoString) : List NeighborhoodStat :=
  let limit := if limit ≤ 0 then 10 else limit
  let city := titleize (firstNonEmpty [cleanAnyValue city, str "Dhaka"])
  let areas := mockNeighborhoods city
  let keys := dedupKeepFirst ((areas.map goTrim).filter (· ≠ []))
  let counts := keys.map fun area =>
    (area,
     (getAllMockProperties.filter fun prop =>
       let address := goLower (goTrim prop.address)
       let title := goLower (goTrim prop.title)
       goHasSub address (goLower area) || goHasSub title (goLower area)).length)
  let stats := (counts.filter fun e => e.2 ≠ 0).map fun e =>
    ({ neighborhood := e.1, city := city, count := (e.2 : ℤ) } : NeighborhoodStat)
  let sorted := sortByLess statLess stats
  if (sorted.length : ℤ) > limit then sorted.take limit.toNat else sorted

/-- mockPropertyByID: case-insensitive id lookup in the mock dataset. -/
def mockPropertyByID (id : GoString) : Option Property :=
  getAllMockProperties.find? fun p => goEqualFold p.id id

/-! ## Decoded JSON values

Values produced by Go JSON decoding into `any` / `map[string]any`.  The
endpoint decoders use dec.UseNumber(), so JSON numbers arrive as json.Number
(the literal text, constructor num); the json.Unmarshal call inside pickMap
does not, so numbers from that path arrive as float64 (constructor fnum). -/

inductive GoVal where
  | str (s : GoString)
  | num (lit : GoString)
  | fnum (v : GoFloat)
  | boolean (b : Bool)
  | null
  | arr (xs : List GoVal)
  | obj (fields : List (GoString × GoVal))

/-- A decoded map[string]any (nil maps are represented by Option at use
sites).  Decoded maps have unique keys (the decoder overwrites duplicates),
so first-match lookup models Go map indexing. -/
abbrev GoObj := List (GoString × GoVal)

/-- m[key] lookup. -/
def objGet (m : GoObj) (key : GoString) : Option GoVal :=
  (m.find? fun e => e.1 == key).map fun e => e.2

/-- Inserts a key into a decoded object, overwriting an existing binding
(models Go map assignment while decoding). -/
def objInsert (m : GoObj) (k : GoString) (v : GoVal) : GoObj :=
  if m.any (fun e => e.1 == k) then
    m.map fun e => if e.1 == k then (k, v) else e
  else m ++ [(k, v)]

/-- fmt %v of a float64 (strconv.FormatFloat with format g, precision -1):
plain decimal when the decimal exponent is in [-4, 21), scientific notation
otherwise, with a sign and at least two exponent digits. -/
def formatFloatG (v : GoFloat) : GoString :=
  let c := canonFloatAux v.exp v.num v.exp
  if c.1 = 0 then str "0"
  else
    let m := c.1.natAbs
    let ds := natDigits m
    let decExp : ℤ := (ds.length : ℤ) - 1 - (c.2 : ℤ)
    if -4 ≤ decExp ∧ decExp < 21 then formatFloatF v
    else
      let sign : GoString := if c.1 < 0 then ['-'] else []
      let mantissa :=
        match ds with
        | [] => []
        | d :: [] => [d]
        | d :: rest => d :: '.' :: rest
      let expSign : GoString := if decExp < 0 then ['-'] else ['+']
      sign ++ mantissa ++ 'e' :: expSign ++ padZeros 2 (natDigits decExp.natAbs)

/-- fmt.Sprintf %v on decoded JSON values: strings verbatim, json.Number as
its literal, float64 with %g, booleans, a nil marker, slices bracketed and
space-separated, maps printed with keys in sorted order (as fmt does). -/
def goSprintfV : GoVal → GoString
  | .str s => s
  | .num lit => lit
  | .fnum v => formatFloatG v
  | .boolean b => if b then str "true" else str "false"
  | .null => str "<nil>"
  | .arr xs => '[' :: (goJoin (xs.attach.map fun x => goSprintfV x.1) (str " ") ++ [']'])
  | .obj m =>
    let rendered := m.attach.map fun e => (e.1.1, goSprintfV e.1.2)
    let sorted := sortByLess (fun a b : GoString × GoString => goStrLt a.1 b.1) rendered
    str "map[" ++ (goJoin (sorted.map fun e => e.1 ++ ':' :: e.2) (str " ") ++ [']'])
termination_by v => sizeOf v
decreasing_by
  · have := List.sizeOf_lt_of_mem x.2
    simp only [GoVal.arr.sizeOf_spec]
    omega
  · have h1 := List.sizeOf_lt_of_mem e.2
    have h2 : sizeOf e.1.2 < sizeOf e.1 := by
      obtain ⟨⟨a, b⟩, _⟩ := e
      simp only [Prod.mk.sizeOf_spec]
      omega
    simp only [GoVal.obj.sizeOf_spec]
    omega

/-- JSON whitespace. -/
def jsonSkipWs (s : GoString) : GoString :=
  s.dropWhile fun c => c = ' ' ∨ c = '\t' ∨ c = '\n' ∨ c = '\r'

/-- Hexadecimal digit value. -/
def hexVal (c : Char) : Option ℕ :=
  if isAsciiDigit c then some (digitVal c)
  else if 'a' ≤ c ∧ c ≤ 'f' then some (c.toNat - 87)
  else if 'A' ≤ c ∧ c ≤ 'F' then some (c.toNat - 55)
  else none

/-- JSON string body scanner (after the opening quote), handling the escape
sequences; \-u escapes yield their code unit (surrogate pairing idealized,
unreachable from the embedded constants). -/
def jsonStrAux : ℕ → GoString → GoString → Option (GoString × GoString)
  | 0, _, _ => none
  | _ + 1, [], _ => none
  | f + 1, c :: rest, acc =>
    if c = '"' then some (acc.reverse, rest)
    else if c = '\\' then
      match rest with
      | [] => none
      | e :: r =>
        if e = '"' then jsonStrAux f r ('"' :: acc)
        else if e = '\\' then jsonStrAux f r ('\\' :: acc)
        else if e = '/' then jsonStrAux f r ('/' :: acc)
        else if e = 'b' then jsonStrAux f r ('\x08' :: acc)
        else if e = 'f' then jsonStrAux f r ('\x0c' :: acc)
        else if e = 'n' then jsonStrAux f r ('\n' :: acc)
        else if e = 'r' then jsonStrAux f r ('\r' :: acc)
        else if e = 't' then jsonStrAux f r ('\t' :: acc)
        else if e = 'u' then
          match r with
          | h1 :: h2 :: h3 :: h4 :: r2 =>
            match hexVal h1, hexVal h2, hexVal h3, hexVal h4 with
            | some a, some b, some c2, some d =>
              jsonStrAux f r2 (Char.ofNat (((a * 16 + b) * 16 + c2) * 16 + d) :: acc)
            | _, _, _, _ => none
          | _ => none
        else none
    else jsonStrAux f rest (c :: acc)

/-- Scans a JSON numeral (strict grammar: no leading +, no leading zeros);
returns the numeral text and the rest of the input. -/
def jsonTakeNumber (s : GoString) : Option (GoString × GoString) :=
  let neg : GoString × GoString :=
    match s with
    | '-' :: t => (['-'], t)
    | t => ([], t)
  let ds := neg.2.takeWhile isAsciiDigit
  let s2 := neg.2.dropWhile isAsciiDigit
  if ds = [] then none
  else if 1 < ds.length ∧ ds.headI = '0' then none
  else
    let fr : GoString × GoString :=
      match s2 with
      | '.' :: t =>
        if t.takeWhile isAsciiDigit = [] then (['!'], t)
        else ('.' :: t.takeWhile isAsciiDigit, t.dropWhile isAsciiDigit)
      | t => ([], t)
    if fr.1 = ['!'] then none
    else
      let ex : Option (GoString × GoString) :=
        match fr.2 with
        | 'e' :: t =>
          let p := stripSign t
          let eds := p.2.takeWhile isAsciiDigit
          if eds = [] then none
          else some ('e' :: (if p.1 then '-' :: eds else eds), p.2.dropWhile isAsciiDigit)
        | 'E' :: t =>
          let p := stripSign t
          let eds := p.2.takeWhile isAsciiDigit
          if eds = [] then none
          else some ('E' :: (if p.1 then '-' :: eds else eds), p.2.dropWhile isAsciiDigit)
        | t => some ([], t)
      match ex with
      | none => none
      | some (exs, rest) => some (neg.1 ++ ds ++ fr.1 ++ exs, rest)

mutual

/-- Recursive-descent JSON value parser (models encoding/json.Unmarshal into
an `any` tree; numbers become float64 values).  Fuel-bounded; the fuel given
at the top level always suffices. -/
def jsonParse : ℕ → GoString → Option (GoVal × GoString)
  | 0, _ => none
  | f + 1, s =>
    match jsonSkipWs s with
    | [] => none
    | '{' :: rest =>
      (match jsonSkipWs rest with
       | '}' :: r => some (.obj [], r)
       | s1 =>
         match jsonParseObjMember f s1 [] with
         | some (m, r) => jsonParseObjLoop f r m
         | none => none)
    | '[' :: rest =>
      (match jsonSkipWs rest with
       | ']' :: r => some (.arr [], r)
       | s1 =>
         match jsonParse f s1 with
         | some (v, r) => jsonParseArrLoop f r [v]
         | none => none)
    | '"' :: rest =>
      (jsonStrAux (rest.length + 1) rest []).map fun p => (.str p.1, p.2)
    | c :: rest =>
      if goStartsWith (c :: rest) (str "true") then some (.boolean true, (c :: rest).drop 4)
      else if goStartsWith (c :: rest) (str "false") then some (.boolean false, (c :: rest).drop 5)
      else if goStartsWith (c :: rest) (str "null") then some (.null, (c :: rest).drop 4)
      else
        match jsonTakeNumber (c :: rest) with
        | some (lit, r) => (goParseFloat lit).map fun v => (.fnum v, r)
        | none => none

/-- Parses one object member (key, colon, value) and inserts it. -/
def jsonParseObjMember : ℕ → GoString → GoObj → Option (GoObj × GoString)
  | 0, _, _ => none
  | f + 1, s, m =>
    match jsonSkipWs s with
    | '"' :: rest =>
      (match jsonStrAux (rest.length + 1) rest [] with
       | some (k, r1) =>
         (match jsonSkipWs r1 with
          | ':' :: r2 =>
            (match jsonParse f r2 with
             | some (v, r3) => some (objInsert m k v, r3)
             | none => none)
          | _ => none)
       | none => none)
    | _ => none

/-- Parses the continuation of an object after one member. -/
def jsonParseObjLoop : ℕ → GoString → GoObj → Option (GoVal × GoString)
  | 0, _, _ => none
  | f + 1, s, m =>
    match jsonSkipWs s with
    | '}' :: rest => some (.obj m, rest)
    | ',' :: rest =>
      (match jsonParseObjMember f rest m with
       | some (m2, r) => jsonParseObjLoop f r m2
       | none => none)
    | _ => none

/-- Parses the continuation of an array after one element. -/
def jsonParseArrLoop : ℕ → GoString → List GoVal → Option (GoVal × GoString)
  | 0, _, _ => none
  | f + 1, s, acc =>
    match jsonSkipWs s with
    | ']' :: rest => some (.arr acc.reverse, rest)
    | ',' :: rest =>
      (match jsonParse f rest with
       | some (v, r) => jsonParseArrLoop f r (v :: acc)
       | none => none)
    | _ => none

end

/-- json.Unmarshal([]byte(s), &out) for out a map[string]any: the input must
be a complete JSON object (with only whitespace around it). -/
def goJSONParse (s : GoString) : Option GoObj :=
  match jsonParse (4 * s.length + 8) s with
  | some (.obj m, rest) => if jsonSkipWs rest = [] then some m else none
  | _ => none

/-- toString: scalar rendering of a decoded value.  The string and
json.Number cases are explicit in the source; float64 formats with %f
(no NaN in the model); everything else falls to fmt.Sprintf %v, trimmed. -/
def toString : GoVal → GoString
  | .str s => goTrim s
  | .num lit => lit
  | .fnum v => formatFloatF v
  | v => goTrim (goSprintfV v)

/-- parseNumber: json.Number and float64 directly, strings via ParseFloat
after trimming; other shapes are not numbers.  (The int cases of the source
cannot arise from JSON decoding.) -/
def parseNumber : GoVal → Option GoFloat
  | .num lit => goParseFloat lit
  | .fnum v => some v
  | .str value =>
    let clean := goTrim value
    if clean = [] then none else goParseFloat clean
  | _ => none

/-- firstString: the first key whose value renders to a non-empty string. -/
def firstString : Option GoObj → List GoString → GoString
  | none, _ => []
  | some _, [] => []
  | some mm, key :: rest =>
    match objGet mm key with
    | some v =>
      let s := toString v
      if s ≠ [] then s else firstString (some mm) rest
    | none => firstString (some mm) rest

/-- floatFrom: the first key whose value parses as a number. -/
def floatFrom : Option GoObj → List GoString → Option GoFloat
  | none, _ => none
  | some _, [] => none
  | some mm, key :: rest =>
    match objGet mm key with
    | some val =>
      (match parseNumber val with
       | some num => some num
       | none => floatFrom (some mm) rest)
    | none => floatFrom (some mm) rest

/-- int(math.Round(f)): round half away from zero, then truncate to int. -/
def GoFloat.roundToInt (v : GoFloat) : ℤ :=
  let d := 10 ^ v.exp
  let r : ℤ := ((2 * v.num.natAbs + d) / (2 * d) : ℕ)
  if v.num < 0 then -r else r

/-- intFrom = floatFrom composed with rounding. -/
def intFrom (m : Option GoObj) (keys : List GoString) : Option ℤ :=
  (floatFrom m keys).map GoFloat.roundToInt

/-- One boolFrom case: how a single value converts to a bool, when it does. -/
def boolFromVal : GoVal → Option Bool
  | .boolean b => some b
  | .str value =>
    let clean := goTrim value
    if clean = [] then none
    else
      (match goParseBool clean with
       | some b => some b
       | none =>
         match goParseFloat clean with
         | some num => some (!num.isZero)
         | none => none)
  | .num lit => (goParseFloat lit).map fun num => !num.isZero
  | .fnum v => some (!v.isZero)
  | _ => none

/-- boolFrom: the first key whose value converts to a bool. -/
def boolFrom : Option GoObj → List GoString → Option Bool
  | none, _ => none
  | some _, [] => none
  | some mm, key :: rest =>
    match objGet mm key with
    | some val =>
      (match boolFromVal val with
       | some b => some b
       | none => boolFrom (some mm) rest)
    | none => boolFrom (some mm) rest

/-- pickMap: the first key holding a non-empty sub-object, either directly or
as an embedded JSON string. -/
def pickMap : Option GoObj → List GoString → Option GoObj
  | none, _ => none
  | some _, [] => none
  | some mm, key :: rest =>
    match objGet mm key with
    | some (.obj sub) =>
      if sub.length > 0 then some sub else pickMap (some mm) rest
    | some (.str s) =>
      (match goJSONParse s with
       | some out => if out.length > 0 then some out else pickMap (some mm) rest
       | none => pickMap (some mm) rest)
    | _ => pickMap (some mm) rest

/-- pickSlice: the first key holding a JSON array. -/
def pickSlice : Option GoObj → List GoString → List GoVal
  | none, _ => []
  | some _, [] => []
  | some mm, key :: rest =>
    match objGet mm key with
    | some (.arr a) => a
    | _ => pickSlice (some mm) rest

/-- Worker for dedupStrings. -/
def dedupStringsAux (seen : List GoString) : List GoString → List GoString
  | [] => []
  | v :: rest =>
    let t := goTrim v
    if t = [] then dedupStringsAux seen rest
    else if seen.contains t then dedupStringsAux seen rest
    else t :: dedupStringsAux (t :: seen) rest

/-- dedupStrings: trim, drop empties, keep first occurrences. -/
def dedupStrings (values : List GoString) : List GoString :=
  dedupStringsAux [] values

/-- stringsFromSlice: the non-empty trimmed renderings of the elements. -/
def stringsFromSlice (values : List GoVal) : List GoString :=
  values.filterMap fun v =>
    let s := goTrim (toString v)
    if s = [] then none else some s

/-- parseStringList: array payloads (directly or under a data key) to a
deduplicated string list.  (The []string case of the source cannot arise
from decoding into any.) -/
def parseStringList : GoVal → List GoString
  | .arr xs => dedupStrings (stringsFromSlice xs)
  | .obj m =>
    (match h : objGet m (str "data") with
     | some d => parseStringList d
     | none => [])
  | _ => []
termination_by v => sizeOf v
decreasing_by
  rw [objGet] at h
  obtain ⟨e, hf, he⟩ := Option.map_eq_some'.mp h
  have h5 := List.sizeOf_lt_of_mem (List.mem_of_find?_eq_some hf)
  obtain ⟨a, b⟩ := e
  simp only [Prod.mk.sizeOf_spec] at h5
  simp only at he
  subst he
  simp only [GoVal.obj.sizeOf_spec]
  omega

/-- A Go time.Time value as used here: a civil date with a wall clock.  The
zone offset does not influence Year() or the date-only Format the code uses
on parsed wall-clock values; time.Unix is modelled in UTC (the server's Local
zone is environment-dependent and no claim depends on it). -/
structure GoTime where
  year : ℤ
  month : ℕ
  day : ℕ
  hour : ℕ := 0
  minute : ℕ := 0
  second : ℕ := 0
deriving DecidableEq

/-- Month abbreviations, index 0 = Jan. -/
def monthNames : List GoString :=
  [str "Jan", str "Feb", str "Mar", str "Apr", str "May", str "Jun",
   str "Jul", str "Aug", str "Sep", str "Oct", str "Nov", str "Dec"]

/-- Gregorian leap year. -/
def isLeapYear (y : ℤ) : Bool := (y % 4 = 0 ∧ y % 100 ≠ 0) ∨ y % 400 = 0

/-- Days in a month. -/
def daysInMonth (y : ℤ) (m : ℕ) : ℕ :=
  if m = 2 then (if isLeapYear y then 29 else 28)
  else if m = 4 ∨ m = 6 ∨ m = 9 ∨ m = 11 then 30
  else if 1 ≤ m ∧ m ≤ 12 then 31
  else 0

/-- A validated date (time.Parse rejects out-of-range months and days). -/
def mkDate (y : ℤ) (mo d : ℕ) : Option GoTime :=
  if 1 ≤ mo ∧ mo ≤ 12 ∧ 1 ≤ d ∧ d ≤ daysInMonth y mo then
    some { year := y, month := mo, day := d }
  else none

/-- Exactly n ASCII digits from the front of s. -/
def parseDigitsN (n : ℕ) (s : GoString) : Option (ℕ × GoString) :=
  let ds := s.take n
  if ds.length = n ∧ ds.all isAsciiDigit then some (digitsToNat ds, s.drop n)
  else none

/-- One or two ASCII digits (the lenient day slot of layouts such as
Jan 2, 2006). -/
def parseDigits1or2 (s : GoString) : Option (ℕ × GoString) :=
  let ds := (s.take 2).takeWhile isAsciiDigit
  if ds = [] then none else some (digitsToNat ds, s.drop ds.length)

/-- A month name (case-insensitive, as Go layout matching is); returns its
1-based number. -/
def parseMonthName (s : GoString) : Option (ℕ × GoString) :=
  let w := s.take 3
  match (monthNames.enum.find? fun e => goEqualFold e.2 w) with
  | some e => some (e.1 + 1, s.drop 3)
  | none => none

/-- Layout 2006-01-02 (also used as the date part of RFC3339), with a
configurable separator. -/
def parseYMD (sep : Char) (s : GoString) : Option (GoTime × GoString) :=
  match parseDigitsN 4 s with
  | none => none
  | some (y, r1) =>
    match r1 with
    | c1 :: r2 =>
      if c1 ≠ sep then none
      else
        match parseDigitsN 2 r2 with
        | none => none
        | some (mo, r3) =>
          match r3 with
          | c2 :: r4 =>
            if c2 ≠ sep then none
            else
              match parseDigitsN 2 r4 with
              | none => none
              | some (d, r5) =>
                (mkDate (y : ℤ) mo d).map fun t => (t, r5)
          | [] => none
    | [] => none

/-- The time-of-day and zone part of RFC3339 after the T: 15:04:05, optional
fractional seconds, then Z or a numeric offset. -/
def parseRFC3339Clock (t : GoTime) (s : GoString) : Option GoTime :=
  match parseDigitsN 2 s with
  | none => none
  | some (hh, r1) =>
    match r1 with
    | ':' :: r2 =>
      (match parseDigitsN 2 r2 with
       | none => none
       | some (mi, r3) =>
         match r3 with
         | ':' :: r4 =>
           (match parseDigitsN 2 r4 with
            | none => none
            | some (ss, r5) =>
              if hh ≥ 24 ∨ mi ≥ 60 ∨ ss ≥ 60 then none
              else
                let r6 :=
                  match r5 with
                  | '.' :: rf =>
                    if rf.takeWhile isAsciiDigit = [] then '.' :: rf
                    else rf.dropWhile isAsciiDigit
                  | r => r
                let zoneOk : Bool :=
                  match r6 with
                  | ['Z'] => true
                  | c :: z1 =>
                    (c == '+' || c == '-') &&
                    (match parseDigitsN 2 z1 with
                     | some (zh, ':' :: z2) =>
                       (match parseDigitsN 2 z2 with
                        | some (zm, []) => decide (zh < 24) && decide (zm < 60)
                        | _ => false)
                     | _ => false)
                  | [] => false
                if zoneOk then some { t with hour := hh, minute := mi, second := ss }
                else none)
         | _ => none)
    | _ => none

/-- Layout 02 Jan 2006. -/
def parseDMYName (s : GoString) : Option GoTime :=
  match parseDigitsN 2 s with
  | none => none
  | some (d, ' ' :: r1) =>
    (match parseMonthName r1 with
     | some (mo, ' ' :: r2) =>
       (match parseDigitsN 4 r2 with
        | some (y, []) => mkDate (y : ℤ) mo d
        | _ => none)
     | _ => none)
  | some (_, _) => none

/-- Layouts Jan 2, 2006 (lenient day) and Jan 02, 2006 (fixed-width day);
the flag picks the day slot. -/
def parseNameDY (fixedDay : Bool) (s : GoString) : Option GoTime :=
  match parseMonthName s with
  | some (mo, ' ' :: r1) =>
    let dayParsed := if fixedDay then parseDigitsN 2 r1 else parseDigits1or2 r1
    (match dayParsed with
     | some (d, ',' :: ' ' :: r2) =>
       (match parseDigitsN 4 r2 with
        | some (y, []) => mkDate (y : ℤ) mo d
        | _ => none)
     | _ => none)
  | _ => none

/-- Layouts 02-01-2006 and 02/01/2006 (day-month-year). -/
def parseDMY (sep : Char) (s : GoString) : Option GoTime :=
  match parseDigitsN 2 s with
  | none => none
  | some (d, c1 :: r1) =>
    if c1 ≠ sep then none
    else
      match parseDigitsN 2 r1 with
      | none => none
      | some (mo, c2 :: r2) =>
        if c2 ≠ sep then none
        else
          match parseDigitsN 4 r2 with
          | some (y, []) => mkDate (y : ℤ) mo d
          | _ => none
      | some (_, []) => none
  | some (_, []) => none

/-- Civil date from days since the Unix epoch (standard era-based
computation). -/
def civilFromDays (z0 : ℤ) : ℤ × ℕ × ℕ :=
  let z := z0 + 719468
  let era := z / 146097
  let doe := (z - era * 146097).toNat
  let yoe := (doe - doe / 1460 + doe / 36524 - doe / 146096) / 365
  let y : ℤ := (yoe : ℤ) + era * 400
  let doy := doe - (365 * yoe + yoe / 4 - yoe / 100)
  let mp := (5 * doy + 2) / 153
  let d := doy - (153 * mp + 2) / 5 + 1
  let m := if mp < 10 then mp + 3 else mp - 9
  (if m ≤ 2 then y + 1 else y, m, d)

/-- time.Unix(secs, 0), modelled in UTC. -/
def goTimeUnix (secs : ℤ) : GoTime :=
  let days := secs / 86400
  let tod := (secs - days * 86400).toNat
  let c := civilFromDays days
  { year := c.1, month := c.2.1, day := c.2.2,
    hour := tod / 3600, minute := tod % 3600 / 60, second := tod % 60 }

/-- parseDateTime: the source's eight layouts in order, then Unix seconds. -/
def parseDateTime (raw : GoString) : Option GoTime :=
  let clean := goTrim raw
  if clean = [] then none
  else
    match parseYMD '-' clean with
    | some (t, 'T' :: rest) => parseRFC3339Clock t rest
    | some (t, []) => some t
    | _ =>
      match parseYMD '/' clean with
      | some (t, []) => some t
      | _ =>
        match parseDMYName clean with
        | some t => some t
        | none =>
          match parseNameDY false clean with
          | some t => some t
          | none =>
            match parseNameDY true clean with
            | some t => some t
            | none =>
              match parseDMY '-' clean with
              | some t => some t
              | none =>
                match parseDMY '/' clean with
                | some t => some t
                | none => (goAtoi clean).map goTimeUnix

/-- time.Time.Format with layout Jan 02, 2006. -/
def formatJan02 (t : GoTime) : GoString :=
  (monthNames.getD (t.month - 1) []) ++ ' ' :: padZeros 2 (natDigits t.day) ++
    ',' :: ' ' :: (if t.year < 0 then ['-'] else []) ++ padZeros 4 (natDigits t.year.natAbs)

/-- extractPrice: monthly rent, then sale price, from a pricing sub-object,
then from the details object itself. -/
def extractPrice (details : Option GoObj) : GoFloat :=
  match details with
  | none => 0
  | some _ =>
    let fromPricing : Option GoFloat :=
      match pickMap details [str "pricing", str "Pricing"] with
      | none => none
      | some pricing =>
        match floatFrom (some pricing) [str "monthly_rent", str "rent_price"] with
        | some v => if GoFloat.blt 0 v then some v else fromSale (some pricing)
        | none => fromSale (some pricing)
    match fromPricing with
    | some v => v
    | none =>
      match floatFrom details [str "sale_price", str "SalePrice"] with
      | some v =>
        if GoFloat.blt 0 v then v
        else fallbackRent details
      | none => fallbackRent details
where
  fromSale (pricing : Option GoObj) : Option GoFloat :=
    match floatFrom pricing [str "sale_price", str "SalePrice"] with
    | some v => if GoFloat.blt 0 v then some v else none
    | none => none
  fallbackRent (details : Option GoObj) : GoFloat :=
    match floatFrom details [str "rent_price", str "RentPrice"] with
    | some v => if GoFloat.blt 0 v then v else 0
    | none => 0

/-- |f| for the coordinate heuristic (math.Abs). -/
def GoFloat.abs (a : GoFloat) : GoFloat := ⟨|a.num|, a.exp⟩

/-- coordsFromSlice: two-element coordinate array with the magnitude-based
lat/lng ordering heuristic of the source. -/
def coordsFromSlice (values : List GoVal) : Option (GoFloat × GoFloat) :=
  match values with
  | v0 :: v1 :: _ =>
    (match parseNumber v0, parseNumber v1 with
     | some first, some second =>
       if GoFloat.blt ⟨60, 0⟩ first.abs ∧ second.abs.ble ⟨60, 0⟩ then
         some (second, first)
       else if GoFloat.blt ⟨60, 0⟩ second.abs ∧ first.abs.ble ⟨60, 0⟩ then
         some (first, second)
       else if GoFloat.blt first.abs second.abs then
         some (first, second)
       else
         some (second, first)
     | _, _ => none)
  | _ => none

/-- buildAddress from a location sub-object. -/
def buildAddress (location : Option GoObj) : GoString :=
  match location with
  | none => []
  | some _ =>
    let parts :=
      [firstString location [str "address"],
       firstString location [str "neighborhood"],
       firstString location [str "city"]].filter (· ≠ [])
    if parts ≠ [] then goJoin parts (str ", ")
    else firstString location [str "raw"]

/-- selectPhotoURLs: cover-flagged photo URLs first, others after, in
encounter order. -/
def selectPhotoURLs (items : List GoVal) : List GoString :=
  if items.length = 0 then []
  else
    let pick := items.foldl (fun (acc : List GoString × List GoString) item =>
      match item with
      | .obj photo =>
        if photo.length = 0 then acc
        else
          let url := firstString (some photo) [str "FileURL", str "file_url", str "fileUrl"]
          if url = [] then acc
          else
            match boolFrom (some photo) [str "IsCover", str "is_cover"] with
            | some true => (acc.1 ++ [url], acc.2)
            | _ => (acc.1, acc.2 ++ [url])
      | _ => acc) ([], [])
    pick.1 ++ pick.2

/-- How one amenities value converts to a list, when it does. -/
def amenVal : GoVal → Option (List GoString)
  | .arr v => some (stringsFromSlice v)
  | .str v => if v = [] then none else some (goSplitOn v (str ","))
  | _ => none

/-- extractAmenities: the first of several keys holding a usable amenities
value; string values are comma-split without trimming. -/
def extractAmenities (m : Option GoObj) : List GoString :=
  match m with
  | none => []
  | some mm => go mm
    [str "amenities", str "Amenities", str "features", str "featureList",
     str "features_list", str "Features"]
where
  go (mm : GoObj) : List GoString → List GoString
    | [] => []
    | key :: rest =>
      match objGet mm key with
      | some val =>
        (match amenVal val with
         | some out => out
         | none => go mm rest)
      | none => go mm rest

/-- mapAssetToProperty: field-by-field extraction from a decoded asset
object, tolerating several key-naming conventions, ending in
finalizeProperty.  nil maps are the none case. -/
def mapAssetToProperty (raw : Option GoObj) : Property :=
  match raw with
  | none => {}
  | some _ =>
    let details := pickMap raw [str "Details", str "details"]
    let location := pickMap raw [str "Location", str "location"]
    let title0 := firstNonEmpty
      [firstString details [str "listing_title", str "listingTitle", str "title"],
       firstString raw [str "Name", str "name"]]
    let title := if title0 = [] then str "Property" else title0
    let lat0 : GoFloat :=
      match floatFrom location [str "lat", str "latitude", str "Lat", str "Latitude"] with
      | some v => v
      | none => 0
    let lng0 : GoFloat :=
      match floatFrom location [str "lng", str "lon", str "longitude", str "Longitude", str "Long"] with
      | some v => v
      | none => 0
    let coords1 : GoFloat × GoFloat :=
      if lat0.isZero ∧ lng0.isZero then
        match coordsFromSlice (pickSlice location [str "coordinates", str "coords"]) with
        | some c => c
        | none => (lat0, lng0)
      else (lat0, lng0)
    let coords2 : GoFloat × GoFloat :=
      if coords1.1.isZero ∧ coords1.2.isZero then
        (match floatFrom raw [str "lat", str "latitude"] with
         | some v => v
         | none => coords1.1,
         match floatFrom raw [str "lng", str "lon", str "longitude", str "long"] with
         | some v => v
         | none => coords1.2)
      else coords1
    let address := firstNonEmpty
      [firstString raw [str "Address", str "address"],
       buildAddress location,
       firstString location [str "raw"]]
    let description := firstNonEmpty
      [firstString details
         [str "description", str "listing_description", str "listingDescription",
          str "overview", str "remarks"],
       firstString raw [str "description", str "Description"]]
    let contactPhone := firstNonEmpty
      [firstString details
         [str "contact_phone", str "contactPhone", str "phone",
          str "owner_phone", str "ownerPhone"],
       firstString raw [str "contact_phone", str "contactPhone", str "phone"]]
    let contactEmail := firstNonEmpty
      [firstString details [str "contact_email", str "contactEmail", str "email"],
       firstString raw [str "contact_email", str "contactEmail", str "email"]]
    let gallery := selectPhotoURLs (pickSlice raw [str "photos", str "Photos"])
    let typ0 := titleize (firstString raw [str "Type", str "type"])
    let listingType0 := titleize (firstString raw [str "Status", str "status"])
    let bedrooms :=
      match details with
      | none => 0
      | some _ => (intFrom details [str "bedrooms"]).getD 0
    let bathrooms :=
      match details with
      | none => 0
      | some _ => (intFrom details [str "bathrooms"]).getD 0
    let area :=
      match details, floatFrom details [str "sizeSqft", str "size_sqft"] with
      | some _, some v => Int.tdiv v.num (10 ^ v.exp)
      | _, _ => 0
    let parking :=
      match details, boolFrom details [str "hasParking", str "has_parking"] with
      | some _, some true => 1
      | _, _ => 0
    let price0 : GoFloat :=
      match details with
      | none => 0
      | some _ =>
        let p := extractPrice details
        if GoFloat.blt 0 p then p else 0
    let listingType :=
      match details with
      | none => listingType0
      | some _ =>
        if listingType0 = [] then
          titleize (firstString details [str "listing_type", str "listingType"])
        else listingType0
    let typ :=
      match details with
      | none => typ0
      | some _ =>
        if typ0 = [] then
          titleize (firstString details [str "property_type", str "propertyType"])
        else typ0
    let buildYear :=
      match details, intFrom details [str "build_year", str "buildYear", str "year_built", str "yearBuilt"] with
      | some _, some v => if v > 0 then v else 0
      | _, _ => 0
    let dateFields : ℤ × GoString :=
      match details with
      | none => (0, [])
      | some _ =>
        let d := firstString details
          [str "listing_date", str "listingDate", str "available_from",
           str "availableFrom", str "created_at", str "createdAt"]
        if d ≠ [] then
          match parseDateTime d with
          | some parsed => (parsed.year, formatJan02 parsed)
          | none => (0, d)
        else (0, [])
    let price : GoFloat :=
      if price0.isZero then
        match floatFrom raw [str "rent_price", str "RentPrice", str "monthly_rent"] with
        | some v => v
        | none => price0
      else price0
    let badges := dedupStrings
      [typ, listingType,
       titleize (firstString location [str "city"]),
       titleize (firstString location [str "neighborhood"]),
       titleize (firstString details [str "furnishingStatus", str "furnishing_status"])]
    let amenities0 := extractAmenities details
    let amenities := dedupStrings (if amenities0.length = 0 then extractAmenities raw else amenities0)
    finalizeProperty
      { id := firstString raw [str "ID", str "id"]
        currency := str "৳"
        type := typ
        listingType := listingType
        title := title
        latitude := coords2.1
        longitude := coords2.2
        address := address
        description := description
        contactPhone := contactPhone
        contactEmail := contactEmail
        gallery := gallery
        bedrooms := bedrooms
        bathrooms := bathrooms
        area := area
        parking := parking
        price := price
        buildYear := buildYear
        listingYear := dateFields.1
        listingDate := dateFields.2
        badges := badges
        amenities := amenities }

/-! ## Client methods with an upstream-outcome oracle

Each client method performs at most one upstream HTTP call; its outcome —
transport error, or a response with a status code and the result decoding its
body would give — is passed as an explicit argument. -/

/-- What decoding a response body yields. -/
inductive DecodeOutcome (α : Type) where
  | fail
  | ok (payload : α)

/-- Outcome of one upstream HTTP call. -/
inductive UpOutcome (α : Type) where
  | netErr
  | resp (status : ℤ) (body : DecodeOutcome α)

/-- The upstream call failed for fallback purposes: transport error, non-200
status, or an undecodable body. -/
def isUpFailure : UpOutcome α → Bool
  | .netErr => true
  | .resp _ .fail => true
  | .resp status (.ok _) => status ≠ 200

/-- The Go error values these methods return. -/
inductive GoErr where
  | net
  | apiStatus (code : ℤ)
  | decode
  | idRequired
  | cityRequired
  | notFound (id : GoString)
  | oauthCredsMissing
  | oauthURLMissing
  | oauthStatus (code : ℤ)
  | oauthEmptyToken
deriving DecidableEq

/-- The decoded assetListResponse envelope; Data elements are decoded JSON
objects (null elements decode to nil maps, the none case). -/
structure AssetListResponse where
  data : List (Option GoObj) := []
  total : ℤ := 0
  page : ℤ := 0
  limit : ℤ := 0

/-- SearchProperties: normalize the query, serve from the mock engine in mock
mode or on any upstream failure, otherwise map the payload and derive
pagination metadata. -/
def SearchProperties (mockEnabled : Bool) (q : Vals)
    (up : UpOutcome AssetListResponse) : Except GoErr PropertyList :=
  let params := buildAssetSearchParams q
  if mockEnabled then .ok (getMockSearchResults params)
  else
    match up with
    | .netErr => .ok (getMockSearchResults params)
    | .resp status body =>
      if status ≠ 200 then .ok (getMockSearchResults params)
      else
        match body with
        | .fail => .ok (getMockSearchResults params)
        | .ok payload =>
          let props := (payload.data.map mapAssetToProperty).filter fun p => p.id != []
          let page :=
            if payload.page ≤ 0 then
              match goAtoi params.page with
              | some p => if p > 0 then p else 1
              | none => 1
            else payload.page
          let limit :=
            if payload.limit ≤ 0 then
              match goAtoi params.limit with
              | some l =>
                if l > 0 then l
                else if props.length = 0 then 1 else (props.length : ℤ)
              | none => if props.length = 0 then 1 else (props.length : ℤ)
            else payload.limit
          let total := if payload.total ≤ 0 then (props.length : ℤ) else payload.total
          let pages := if total > 0 ∧ limit > 0 then goCeilDivFloat total limit else 1
          .ok { items := props, page := page, pages := pages, total := total }

/-- GetCities: mock list in mock mode, on any upstream failure, and on an
empty parsed response. -/
def GetCities (mockEnabled : Bool) (up : UpOutcome GoVal) : Except GoErr (List GoString) :=
  if mockEnabled then .ok mockCities
  else
    match up with
    | .netErr => .ok mockCities
    | .resp status body =>
      if status ≠ 200 then .ok mockCities
      else
        match body with
        | .fail => .ok mockCities
        | .ok payload =>
          let cities := parseStringList payload
          if cities.length = 0 then .ok mockCities else .ok cities

/-- GetNeighborhoods: an empty (or "any") city is the one error; otherwise
the mock list substitutes for mock mode, any upstream failure, or an empty
parsed response. -/
def GetNeighborhoods (mockEnabled : Bool) (city : GoString)
    (up : UpOutcome GoVal) : Except GoErr (List GoString) :=
  let city := cleanAnyValue city
  if city = [] then .error .cityRequired
  else if mockEnabled then .ok (mockNeighborhoods city)
  else
    match up with
    | .netErr => .ok (mockNeighborhoods city)
    | .resp status body =>
      if status ≠ 200 then .ok (mockNeighborhoods city)
      else
        match body with
        | .fail => .ok (mockNeighborhoods city)
        | .ok payload =>
          let areas := parseStringList payload
          if areas.length = 0 then .ok (mockNeighborhoods city) else .ok areas

/-- GetTopNeighborhoods: limit defaulted, city cleaned; mock ranking for mock
mode, upstream failures and empty cleaned responses; otherwise the cleaned,
truncated upstream rows. -/
def GetTopNeighborhoods (mockEnabled : Bool) (limit : ℤ) (city : GoString)
    (up : UpOutcome (List NeighborhoodStat)) : Except GoErr (List NeighborhoodStat) :=
  let limit := if limit ≤ 0 then 10 else limit
  let city := cleanAnyValue city
  if mockEnabled then .ok (mockTopNeighborhoods limit city)
  else
    match up with
    | .netErr => .ok (mockTopNeighborhoods limit city)
    | .resp status body =>
      if status ≠ 200 then .ok (mockTopNeighborhoods limit city)
      else
        match body with
        | .fail => .ok (mockTopNeighborhoods limit city)
        | .ok payload =>
          let cleaned := payload.filterMap fun item =>
            if goTrim item.neighborhood = [] then none
            else some { item with city := if item.city = [] then city else item.city }
          if cleaned.length = 0 then .ok (mockTopNeighborhoods limit city)
          else if (cleaned.length : ℤ) > limit then .ok (cleaned.take limit.toNat)
          else .ok cleaned

/-- GetProperty: empty id is an error; in mock mode, dataset lookup or a
not-found error; against the live upstream, a failure falls back to the mock
record when the id is in the dataset and otherwise propagates the error; a
decoded payload is mapped, keeping the requested id if the payload has
none. -/
def GetProperty (mockEnabled : Bool) (id : GoString)
    (up : UpOutcome (Option GoObj)) : Except GoErr Property :=
  if id = [] then .error .idRequired
  else if mockEnabled then
    match mockPropertyByID id with
    | some prop => .ok (finalizeProperty prop)
    | none => .error (.notFound id)
  else
    match up with
    | .netErr =>
      (match mockPropertyByID id with
       | some prop => .ok (finalizeProperty prop)
       | none => .error .net)
    | .resp status body =>
      if status ≠ 200 then
        match mockPropertyByID id with
        | some prop => .ok (finalizeProperty prop)
        | none => .error (.apiStatus status)
      else
        match body with
        | .fail =>
          (match mockPropertyByID id with
           | some prop => .ok (finalizeProperty prop)
           | none => .error .decode)
        | .ok payload =>
          let prop := mapAssetToProperty payload
          .ok (if prop.id = [] then { prop with id := id } else prop)

/-! ## Token cache -/

/-- Nanoseconds per time.Second. -/
def nsPerSecond : ℤ := 1000000000

/-- time.Minute in nanoseconds. -/
def minuteNs : ℤ := 60 * nsPerSecond

/-- The mutex-guarded token-cache slot of the Client (zero value: no token,
zero expiry instant).  Instants are nanoseconds on an absolute scale. -/
structure TokenCacheState where
  cachedToken : GoString := []
  tokenExpiry : ℤ := 0
deriving DecidableEq

/-- Result of one getOAuthToken call: the returned value, the state left in
the cache, and the number of token-endpoint requests made during the call. -/
structure TokenFetchResult where
  result : Except GoErr GoString
  state : TokenCacheState
  requests : ℕ

/-- Two-complement wrap-around of int64 arithmetic: the representative of n
in [-2^63, 2^63). -/
def wrapInt64 (n : ℤ) : ℤ := (n + 2 ^ 63) % 2 ^ 64 - 2 ^ 63

/-- getOAuthToken.  The token endpoint outcome payload is the decoded pair
(access_token, expires_in seconds).  A cached token is returned, with no
request, only while its stored expiry is more than one minute away; a
successful fetch stores expiry = now + lifetime - min(2 minutes, lifetime/10).
The lifetime time.Duration(expiresIn) * time.Second is int64 arithmetic and
wraps; a lifetime that is non-positive after the wrap is replaced by the
15-minute default. -/
def getOAuthToken (clientID clientSecret tokenURL : GoString)
    (st : TokenCacheState) (now : ℤ) (up : UpOutcome (GoString × ℤ)) :
    TokenFetchResult :=
  if clientID = [] ∨ clientSecret = [] then ⟨.error .oauthCredsMissing, st, 0⟩
  else if tokenURL = [] then ⟨.error .oauthURLMissing, st, 0⟩
  else if st.cachedToken ≠ [] ∧ st.tokenExpiry - now > minuteNs then
    ⟨.ok st.cachedToken, st, 0⟩
  else
    match up with
    | .netErr => ⟨.error .net, st, 1⟩
    | .resp status body =>
      if status ≠ 200 then ⟨.error (.oauthStatus status), st, 1⟩
      else
        match body with
        | .fail => ⟨.error .decode, st, 1⟩
        | .ok (accessToken, expiresInSecs) =>
          if accessToken = [] then ⟨.error .oauthEmptyToken, st, 1⟩
          else
            let expiresIn :=
              if wrapInt64 (expiresInSecs * nsPerSecond) ≤ 0 then 15 * minuteNs
              else wrapInt64 (expiresInSecs * nsPerSecond)
            let refreshBefore := min (2 * minuteNs) (expiresIn / 10)
            ⟨.ok accessToken,
             { cachedToken := accessToken, tokenExpiry := now + expiresIn - refreshBefore },
             1⟩

/-! ## Statement vocabulary -/

/-- The raw query keys, for quantifying over fields. -/
inductive QField where
  | page | limit | status | listing_type | listingType | q | location | area
  | neighborhood | types | type | price_max | maxPrice | price_min | minPrice
  | city | bedrooms | bathrooms | parking | serviced | shared_room | sharedRoom
  | area_min | area_max | furnished | subunit_type | exclude_leased | sort_by
  | order
deriving DecidableEq

/-- Overwrites one raw query field ([] is the absent value, exactly what
url.Values.Get yields for a missing key). -/
def setQ (b : Vals) (f : QField) (v : GoString) : Vals :=
  match f with
  | .page => { b with page := v }
  | .limit => { b with limit := v }
  | .status => { b with status := v }
  | .listing_type => { b with listing_type := v }
  | .listingType => { b with listingType := v }
  | .q => { b with q := v }
  | .location => { b with location := v }
  | .area => { b with area := v }
  | .neighborhood => { b with neighborhood := v }
  | .types => { b with types := v }
  | .type => { b with type := v }
  | .price_max => { b with price_max := v }
  | .maxPrice => { b with maxPrice := v }
  | .price_min => { b with price_min := v }
  | .minPrice => { b with minPrice := v }
  | .city => { b with city := v }
  | .bedrooms => { b with bedrooms := v }
  | .bathrooms => { b with bathrooms := v }
  | .parking => { b with parking := v }
  | .serviced => { b with serviced := v }
  | .shared_room => { b with shared_room := v }
  | .sharedRoom => { b with sharedRoom := v }
  | .area_min => { b with area_min := v }
  | .area_max => { b with area_max := v }
  | .furnished => { b with furnished := v }
  | .subunit_type => { b with subunit_type := v }
  | .exclude_leased => { b with exclude_leased := v }
  | .sort_by => { b with sort_by := v }
  | .order => { b with order := v }

/-- The letter-case variants of the literal token any. -/
def anyVariants : List GoString :=
  [str "any", str "Any", str "aNy", str "anY", str "ANy", str "AnY",
   str "aNY", str "ANY"]

/-! ## Shared helper lemmas -/

theorem cleanAnyValue_nil : cleanAnyValue [] = [] := rfl

theorem goTrim_nil : goTrim [] = [] := rfl

theorem goAtoi_nil : goAtoi [] = none := rfl

theorem parseFloatParam_nil (d : GoFloat) : parseFloatParam [] d = d := rfl

theorem parseIntParam_nil (d : ℤ) : parseIntParam [] d = d := rfl

theorem parsePriceField_nil : parsePriceField [] = none := rfl

theorem goFloat_blt_zero_zero : GoFloat.blt 0 0 = false := rfl

theorem wrapInt64_eq_self (n : ℤ) (h1 : -2 ^ 63 ≤ n) (h2 : n < 2 ^ 63) :
    wrapInt64 n = n := by
  unfold wrapInt64
  omega

theorem parseIntParam_of_atoi (s : GoString) (d k : ℤ)
    (hk : goAtoi (goTrim s) = some k) (h0 : 0 ≤ k) : parseIntParam s d = k := by
  have hs : ¬ s = [] := by
    intro he
    rw [he, goTrim_nil, goAtoi_nil] at hk
    cases hk
  unfold parseIntParam
  rw [if_neg hs, hk]
  show (if k < 0 then d else k) = k
  rw [if_neg (by omega)]

theorem parseIntParam_limit_ge_one (s : GoString)
    (h : s = [] ∨ goAtoi (goTrim s) = none ∨
         (∃ m, goAtoi (goTrim s) = some m ∧ (m < 0 ∨ 1 ≤ m))) :
    1 ≤ parseIntParam s 9 := by
  unfold parseIntParam
  rcases h with h | h | ⟨m, hm, hcase⟩
  · rw [if_pos h]; omega
  · split_ifs with he
    · omega
    · rw [h]
      show (1:ℤ) ≤ 9
      omega
  · split_ifs with he
    · omega
    · rw [hm]
      show 1 ≤ if m < 0 then 9 else m
      split_ifs with hneg <;> omega

theorem matches_onlyParking (prop : Property) (v : GoString) :
    matchesMockFilters prop ({ parking := v } : Vals) =
      mockFilterParking prop ({ parking := v } : Vals) := by
  simp [matchesMockFilters, mockFilterText, mockFilterLocation, mockFilterArea,
    mockFilterNeighborhood, mockFilterTypes, mockFilterType, mockFilterStatus,
    mockFilterPriceMin, mockFilterPriceMax, mockFilterAreaMin, mockFilterAreaMax,
    mockFilterBedrooms, mockFilterBathrooms, mockFilterFurnished,
    mockFilterServiced, mockFilterShared, cleanAnyValue_nil, parseFloatParam_nil,
    parseIntParam_nil, firstNonEmpty, goTrim_nil, goFloat_blt_zero_zero]

theorem parkingBlock_char (prop : Property) (qq : Vals) (n : ℤ)
    (hq : parseIntParam qq.parking (-1) = n) :
    ((0 ≤ n ∧ n ≤ 2) → (mockFilterParking prop qq = true ↔ prop.parking = n)) ∧
    (3 ≤ n → (mockFilterParking prop qq = true ↔ n ≤ prop.parking)) := by
  simp only [mockFilterParking, hq]
  constructor
  · rintro ⟨h0, h2⟩
    simp only [ge_iff_le, h0, if_pos]
    rw [if_neg (by omega), if_neg (by omega)]
    split_ifs with hne
    · simp [hne]
    · simpa using hne
  · intro h3
    rw [if_pos (by omega : (0:ℤ) ≤ n)]
    by_cases h10 : (10:ℤ) ≤ n
    · rw [if_pos h10]
      split_ifs with hlt
      · constructor
        · intro hc; exact absurd hc (by simp)
        · intro hc; omega
      · simp; omega
    · rw [if_neg h10, if_pos (by omega : (3:ℤ) ≤ n)]
      split_ifs with hlt
      · constructor
        · intro hc; exact absurd hc (by simp)
        · intro hc; omega
      · simp; omega

theorem mockPagination_bounds (total page0 k : ℤ) (ht : 0 ≤ total) (h1 : 1 ≤ k) :
    ((mockPagination total page0 k).2.1 = max 1 ((total + k - 1) / k)) ∧
    (total = 0 → (mockPagination total page0 k).2.1 = 1) ∧
    total ≤ (mockPagination total page0 k).2.1 * k ∧
    (0 < total → ((mockPagination total page0 k).2.1 - 1) * k < total) ∧
    1 ≤ (mockPagination total page0 k).1 ∧
    (mockPagination total page0 k).1 ≤ (mockPagination total page0 k).2.1 ∧
    0 ≤ (mockPagination total page0 k).2.2.1 ∧
    (mockPagination total page0 k).2.2.1 ≤ (mockPagination total page0 k).2.2.2 ∧
    (mockPagination total page0 k).2.2.2 ≤ total := by
  have hk0 : k ≠ 0 := by omega
  have hkpos : (0:ℤ) < k := by omega
  have hident : (total + k - 1) / k = (total - 1) / k + 1 := by
    have h := Int.add_mul_ediv_right (total - 1) 1 hk0
    have h2 : total + k - 1 = total - 1 + 1 * k := by ring
    rw [h2, h]
  have hub : total ≤ ((total + k - 1) / k) * k := by
    have h2 := Int.lt_ediv_add_one_mul_self (total - 1) hkpos
    rw [hident]
    omega
  have hlb : 0 < total → ((total + k - 1) / k - 1) * k < total := by
    intro h0
    have h3 := Int.ediv_mul_le (total - 1) hk0
    rw [hident]
    have h9 : ((total - 1) / k + 1 - 1) * k = (total - 1) / k * k := by ring
    omega
  have hpos : 0 < total → 1 ≤ (total + k - 1) / k := by
    intro h0
    have h4 := Int.ediv_nonneg (by omega : (0:ℤ) ≤ total - 1) (by omega : (0:ℤ) ≤ k)
    rw [hident]
    omega
  have hzero : total = 0 → (total + k - 1) / k = 0 := by
    intro h0
    subst h0
    have h5 : (k - 1) / k = 0 := Int.ediv_eq_zero_of_lt (by omega) (by omega)
    have h6 : (k - 1 + (-1) * k) / k = (k - 1) / k + (-1) := Int.add_mul_ediv_right _ _ hk0
    have h7 : k - 1 + (-1) * k = 0 + k - 1 - k := by ring
    have h8 : (0 + k - 1 - k : ℤ) = -1 := by ring
    rw [h7, h8] at h6
    have h9 : (0 + k - 1) / k = (k - 1) / k := by ring_nf
    omega
  have hnn : 0 ≤ (total + k - 1) / k := by
    rcases (by omega : total = 0 ∨ 0 < total) with h0 | h0
    · rw [hzero h0]
    · have := hpos h0
      omega
  simp only [mockPagination, goCeilDivFloat, if_neg hk0]
  set p := (total + k - 1) / k with hp
  set pages := if p = 0 then 1 else p with hpages
  have hpage1 : 1 ≤ pages := by
    rw [hpages]
    split_ifs with h0
    · omega
    · omega
  have hpagesub : total ≤ pages * k ∧ (0 < total → (pages - 1) * k < total) ∧
      pages = max 1 p ∧ (total = 0 → pages = 1) := by
    rcases (by omega : total = 0 ∨ 0 < total) with h0 | h0
    · have hz := hzero h0
      rw [hpages, if_pos hz]
      refine ⟨by omega, by omega, ?_, fun _ => rfl⟩
      rw [hz]
      exact (max_eq_left (by norm_num)).symm
    · have hge := hpos h0
      rw [hpages, if_neg (by omega)]
      exact ⟨hub, hlb, (max_eq_right hge).symm, by omega⟩
  set page1 := if page0 < 1 then 1 else page0 with hpage1def
  have hp1 : 1 ≤ page1 := by
    rw [hpage1def]; split_ifs <;> omega
  set page := if page1 > pages then pages else page1 with hpagedef
  have hpagebd : 1 ≤ page ∧ page ≤ pages := by
    rw [hpagedef]; constructor
    · split_ifs <;> omega
    · split_ifs <;> omega
  set start0 := (page - 1) * k with hstart0
  have hs0 : 0 ≤ start0 := by
    rw [hstart0]
    exact mul_nonneg (by omega) (by omega)
  have hse : start0 ≤ start0 + k := by omega
  refine ⟨hpagesub.2.2.1, hpagesub.2.2.2, hpagesub.1, hpagesub.2.1,
    hpagebd.1, hpagebd.2, ?_, ?_, ?_⟩
  · split_ifs <;> omega
  · split_ifs <;> omega
  · split_ifs <;> omega

theorem anyVariant_facts (s : GoString) (hs : s ∈ anyVariants) :
    cleanAnyValue s = [] ∧ goAtoi (goTrim s) = none ∧ parsePriceField s = none ∧
    goTrim s ≠ [] ∧ cleanAnyValue (goTrim s) = [] := by
  fin_cases hs <;> decide

/-- Congruence for the Parameter Normalizer: two raw queries on which every
key-level computation agrees normalize identically. -/
theorem buildAssetSearchParams_congr (q1 q2 : Vals)
    (hpage : pageParam q1 = pageParam q2)
    (hlimit : limitParam q1 = limitParam q2)
    (hstatus : statusParam q1 = statusParam q2)
    (hq : qParam q1 = qParam q2)
    (hloc : cleanAnyValue q1.location = cleanAnyValue q2.location)
    (hneigh : neighborhoodParam q1 = neighborhoodParam q2)
    (htypes : typesParam q1 = typesParam q2)
    (hpmax : priceMaxParam q1 = priceMaxParam q2)
    (hpmin : priceMinParam q1 = priceMinParam q2)
    (hcity : cleanAnyValue q1.city = cleanAnyValue q2.city)
    (hbed : cleanAnyValue q1.bedrooms = cleanAnyValue q2.bedrooms)
    (hbath : cleanAnyValue q1.bathrooms = cleanAnyValue q2.bathrooms)
    (hpark : cleanAnyValue q1.parking = cleanAnyValue q2.parking)
    (hserv : cleanAnyValue q1.serviced = cleanAnyValue q2.serviced)
    (hshared : cleanAnyValue q1.shared_room = cleanAnyValue q2.shared_room)
    (hamin : cleanAnyValue q1.area_min = cleanAnyValue q2.area_min)
    (hamax : cleanAnyValue q1.area_max = cleanAnyValue q2.area_max)
    (hfurn : cleanAnyValue q1.furnished = cleanAnyValue q2.furnished)
    (hsub : cleanAnyValue q1.subunit_type = cleanAnyValue q2.subunit_type)
    (hexcl : cleanAnyValue q1.exclude_leased = cleanAnyValue q2.exclude_leased)
    (hsort : cleanAnyValue q1.sort_by = cleanAnyValue q2.sort_by)
    (horder : cleanAnyValue q1.order = cleanAnyValue q2.order) :
    buildAssetSearchParams q1 = buildAssetSearchParams q2 := by
  unfold buildAssetSearchParams
  rw [hpage, hlimit, hstatus, hq, hloc, hneigh, htypes, hpmax, hpmin, hcity,
    hbed, hbath, hpark, hserv, hshared, hamin, hamax, hfurn, hsub, hexcl,
    hsort, horder]

/-! ## Claim theorems -/

/-- C1: for every incoming query and every failing outcome of the upstream
assets call (network error, non-200 status, decode failure), SearchProperties
returns a nil error together with the mock engine result computed from the
same normalized parameter set; and for every outcome whatsoever it returns a
nil error. -/
theorem searchProperties_always_falls_back (q : Vals) (up : UpOutcome AssetListResponse) :
    (isUpFailure up = true →
      SearchProperties false q up = .ok (getMockSearchResults (buildAssetSearchParams q))) ∧
    (∀ mockEnabled : Bool, ∃ pl, SearchProperties mockEnabled q up = .ok pl) := by
  constructor
  · intro h
    cases up with
    | netErr => rfl
    | resp status body =>
      cases body with
      | fail =>
        by_cases hs : status = 200 <;> simp [SearchProperties, hs]
      | ok payload =>
        have hs : ¬ status = 200 := by
          simpa [isUpFailure] using h
        simp [SearchProperties, hs]
  · intro mockEnabled
    cases mockEnabled with
    | true => exact ⟨_, rfl⟩
    | false =>
      cases up with
      | netErr => exact ⟨_, rfl⟩
      | resp status body =>
        by_cases hs : status = 200
        · subst hs
          cases body with
          | fail => exact ⟨_, rfl⟩
          | ok payload => exact ⟨_, rfl⟩
        · refine ⟨getMockSearchResults (buildAssetSearchParams q), ?_⟩
          simp [SearchProperties, hs]

/-- Witness for C1 at the empty query and a network error. -/
theorem searchProperties_always_falls_back_witness :
    SearchProperties false {} .netErr =
      .ok (getMockSearchResults (buildAssetSearchParams {})) ∧
    (∃ pl, SearchProperties true {} .netErr = .ok pl) :=
  ⟨(searchProperties_always_falls_back {} .netErr).1 rfl,
   (searchProperties_always_falls_back {} .netErr).2 true⟩

/-- C2: in the mock filter, a parking parameter parsing to n in [0, 2]
matches only records with exactly n parking spaces, and n ≥ 3 means at least
n; on a query containing only the parking filter the match is exactly that
predicate. -/
theorem mockParkingFilter_semantics (prop : Property) (q : Vals) (n : ℤ)
    (h : parseIntParam q.parking (-1) = n) :
    ((0 ≤ n ∧ n ≤ 2) → matchesMockFilters prop q = true → prop.parking = n) ∧
    (3 ≤ n → matchesMockFilters prop q = true → n ≤ prop.parking) ∧
    ((0 ≤ n ∧ n ≤ 2) →
      (matchesMockFilters prop ({ parking := q.parking } : Vals) = true ↔ prop.parking = n)) ∧
    (3 ≤ n →
      (matchesMockFilters prop ({ parking := q.parking } : Vals) = true ↔ n ≤ prop.parking)) := by
  have hpark : matchesMockFilters prop q = true → mockFilterParking prop q = true := by
    intro hm
    simp only [matchesMockFilters, Bool.and_eq_true] at hm
    tauto
  have hchar := parkingBlock_char prop q n h
  have hchar2 := parkingBlock_char prop ({ parking := q.parking } : Vals) n h
  refine ⟨?_, ?_, ?_, ?_⟩
  · intro hn hm; exact (hchar.1 hn).mp (hpark hm)
  · intro hn hm; exact (hchar.2 hn).mp (hpark hm)
  · intro hn; rw [matches_onlyParking]; exact hchar2.1 hn
  · intro hn; rw [matches_onlyParking]; exact hchar2.2 hn

/-- Witness for C2 at parking=2 (exact) and parking=3 (at least). -/
theorem mockParkingFilter_semantics_witness :
    (matchesMockFilters ({ parking := 2 } : Property) ({ parking := str "2" } : Vals) = true ↔
      ({ parking := 2 } : Property).parking = 2) ∧
    (matchesMockFilters ({ parking := 5 } : Property) ({ parking := str "3" } : Vals) = true ↔
      (3:ℤ) ≤ ({ parking := 5 } : Property).parking) := by
  constructor
  · exact (mockParkingFilter_semantics ({ parking := 2 } : Property)
      ({ parking := str "2" } : Vals) 2 (by decide)).2.2.1 (by omega)
  · exact (mockParkingFilter_semantics ({ parking := 5 } : Property)
      ({ parking := str "3" } : Vals) 3 (by decide)).2.2.2 (by omega)

/-- C5: with a positive parsed limit k, the mock engine reports
pages = ceil(total / k) with a minimum of 1 (stated by the integer formula
and its order characterization) and clamps page into [1, pages]. -/
theorem mockSearch_pagination_invariant (q : Vals) (k : ℤ)
    (hk : goAtoi (goTrim q.limit) = some k) (h1 : 1 ≤ k) :
    (getMockSearchResults q).total =
      ((getAllMockProperties.filter fun prop => matchesMockFilters prop q).length : ℤ) ∧
    (getMockSearchResults q).pages =
      max 1 ((((getAllMockProperties.filter fun prop => matchesMockFilters prop q).length : ℤ) + k - 1) / k) ∧
    (((getAllMockProperties.filter fun prop => matchesMockFilters prop q).length : ℤ) = 0 →
      (getMockSearchResults q).pages = 1) ∧
    ((getAllMockProperties.filter fun prop => matchesMockFilters prop q).length : ℤ) ≤
      (getMockSearchResults q).pages * k ∧
    (0 < ((getAllMockProperties.filter fun prop => matchesMockFilters prop q).length : ℤ) →
      ((getMockSearchResults q).pages - 1) * k <
        ((getAllMockProperties.filter fun prop => matchesMockFilters prop q).length : ℤ)) ∧
    1 ≤ (getMockSearchResults q).page ∧
    (getMockSearchResults q).page ≤ (getMockSearchResults q).pages := by
  have hlim : parseIntParam q.limit 9 = k := parseIntParam_of_atoi _ 9 _ hk (by omega)
  have hb := mockPagination_bounds
    ((getAllMockProperties.filter fun prop => matchesMockFilters prop q).length : ℤ)
    (parseIntParam q.page 1) k (by positivity) h1
  refine ⟨rfl, ?_, ?_, ?_, ?_, ?_, ?_⟩
  · show (mockPagination _ (parseIntParam q.page 1) (parseIntParam q.limit 9)).2.1 = _
    rw [hlim]
    exact hb.1
  · intro hz
    show (mockPagination _ (parseIntParam q.page 1) (parseIntParam q.limit 9)).2.1 = 1
    rw [hlim]
    exact hb.2.1 hz
  · show _ ≤ (mockPagination _ (parseIntParam q.page 1) (parseIntParam q.limit 9)).2.1 * k
    rw [hlim]
    exact hb.2.2.1
  · intro hz
    show ((mockPagination _ (parseIntParam q.page 1) (parseIntParam q.limit 9)).2.1 - 1) * k < _
    rw [hlim]
    exact hb.2.2.2.1 hz
  · show 1 ≤ (mockPagination _ (parseIntParam q.page 1) (parseIntParam q.limit 9)).1
    rw [hlim]
    exact hb.2.2.2.2.1
  · show (mockPagination _ (parseIntParam q.page 1) (parseIntParam q.limit 9)).1 ≤
      (mockPagination _ (parseIntParam q.page 1) (parseIntParam q.limit 9)).2.1
    rw [hlim]
    exact hb.2.2.2.2.2.1

/-- Witness for C5 at limit=5 on the unfiltered dataset. -/
theorem mockSearch_pagination_invariant_witness :
    (getMockSearchResults ({ limit := str "5" } : Vals)).pages =
      max 1 ((((getAllMockProperties.filter fun prop =>
        matchesMockFilters prop ({ limit := str "5" } : Vals)).length : ℤ) + 5 - 1) / 5) ∧
    1 ≤ (getMockSearchResults ({ limit := str "5" } : Vals)).page ∧
    (getMockSearchResults ({ limit := str "5" } : Vals)).page ≤
      (getMockSearchResults ({ limit := str "5" } : Vals)).pages := by
  have h := mockSearch_pagination_invariant ({ limit := str "5" } : Vals) 5 (by decide) (by omega)
  exact ⟨h.2.1, h.2.2.2.2.2.1, h.2.2.2.2.2.2⟩

/-- C9: whenever the limit parameter is absent, non-numeric, negative, or a
positive integer, the parsed limit is at least 1 (so the pages computation
divides by a non-zero value) and the mock engine slice bounds satisfy
0 ≤ start ≤ end ≤ length of the filtered list. -/
theorem mockSearch_slice_safety (q : Vals)
    (h : q.limit = [] ∨ goAtoi (goTrim q.limit) = none ∨
         (∃ m, goAtoi (goTrim q.limit) = some m ∧ (m < 0 ∨ 1 ≤ m))) :
    1 ≤ parseIntParam q.limit 9 ∧
    0 ≤ (mockPagination
      ((getAllMockProperties.filter fun prop => matchesMockFilters prop q).length : ℤ)
      (parseIntParam q.page 1) (parseIntParam q.limit 9)).2.2.1 ∧
    (mockPagination
      ((getAllMockProperties.filter fun prop => matchesMockFilters prop q).length : ℤ)
      (parseIntParam q.page 1) (parseIntParam q.limit 9)).2.2.1 ≤
    (mockPagination
      ((getAllMockProperties.filter fun prop => matchesMockFilters prop q).length : ℤ)
      (parseIntParam q.page 1) (parseIntParam q.limit 9)).2.2.2 ∧
    (mockPagination
      ((getAllMockProperties.filter fun prop => matchesMockFilters prop q).length : ℤ)
      (parseIntParam q.page 1) (parseIntParam q.limit 9)).2.2.2 ≤
      ((getAllMockProperties.filter fun prop => matchesMockFilters prop q).length : ℤ) := by
  have h1 : 1 ≤ parseIntParam q.limit 9 := parseIntParam_limit_ge_one q.limit h
  have hb := mockPagination_bounds
    ((getAllMockProperties.filter fun prop => matchesMockFilters prop q).length : ℤ)
    (parseIntParam q.page 1) (parseIntParam q.limit 9) (by positivity) h1
  exact ⟨h1, hb.2.2.2.2.2.2.1, hb.2.2.2.2.2.2.2.1, hb.2.2.2.2.2.2.2.2⟩

/-- Witness for C9 with the limit absent. -/
theorem mockSearch_slice_safety_witness :
    1 ≤ parseIntParam ([] : GoString) 9 ∧
    0 ≤ (mockPagination
      ((getAllMockProperties.filter fun prop => matchesMockFilters prop ({} : Vals)).length : ℤ)
      (parseIntParam ({} : Vals).page 1) (parseIntParam ({} : Vals).limit 9)).2.2.1 := by
  have h := mockSearch_slice_safety ({} : Vals) (Or.inl rfl)
  exact ⟨h.1, h.2.1⟩

/-- C4 counterexample: a raw limit of literal 0 is passed through as 0, not
defaulted to 9 as the claim states. -/
theorem limit_zero_passes_through :
    (buildAssetSearchParams ({ limit := str "0" } : Vals)).limit = str "0" ∧
    str "0" ≠ str "9" := by decide

/-- C4 amended: page defaults to 1 when absent, 0 or non-numeric; limit
defaults to 9 when absent or non-numeric but a literal 0 is kept; status
defaults to listed_rental,listed_sale when absent or any and the
listing-type alias normalizes to empty, while a non-empty normalized
listing-type value (including unrecognized values, which pass through
lowercased) becomes the status. -/
theorem normalizer_defaults (q : Vals) :
    ((goAtoi (goTrim q.page) = none ∨ goTrim q.page = [] ∨ goTrim q.page = str "0") →
      (buildAssetSearchParams q).page = str "1") ∧
    ((goAtoi (goTrim q.limit) = none ∨ goTrim q.limit = []) →
      (buildAssetSearchParams q).limit = str "9") ∧
    (goTrim q.limit = str "0" → (buildAssetSearchParams q).limit = str "0") ∧
    ((cleanAnyValue q.status = [] ∧
      normalizeListingType (cleanAnyValue (firstNonEmpty [q.listing_type, q.listingType])) = []) →
      (buildAssetSearchParams q).status = defaultStatusFilter) ∧
    ((cleanAnyValue q.status = [] ∧
      normalizeListingType (cleanAnyValue (firstNonEmpty [q.listing_type, q.listingType])) ≠ []) →
      (buildAssetSearchParams q).status =
        normalizeListingType (cleanAnyValue (firstNonEmpty [q.listing_type, q.listingType]))) := by
  refine ⟨?_, ?_, ?_, ?_, ?_⟩
  · intro h
    show pageParam q = str "1"
    unfold pageParam
    rw [if_pos h]
  · intro h
    show limitParam q = str "9"
    unfold limitParam
    rw [if_pos h]
  · intro h
    show limitParam q = str "0"
    unfold limitParam
    have hz : goAtoi (goTrim q.limit) = some 0 := by rw [h]; decide
    rw [if_neg (by rw [hz, h]; decide), h]
  · rintro ⟨h1, h2⟩
    show statusParam q = defaultStatusFilter
    unfold statusParam
    rw [if_pos h1, h2]
    simp
  · rintro ⟨h1, h2⟩
    show statusParam q = _
    unfold statusParam
    rw [if_pos h1, if_pos h2]

/-- Witness for C4: the three defaults, the limit-0 passthrough, and an
unrecognized listing-type passthrough, at concrete queries. -/
theorem normalizer_defaults_witness :
    (buildAssetSearchParams ({ page := str "0", limit := str " ", status := str "ANY", listing_type := str "both" } : Vals)).page = str "1" ∧
    (buildAssetSearchParams ({ page := str "0", limit := str " ", status := str "ANY", listing_type := str "both" } : Vals)).limit = str "9" ∧
    (buildAssetSearchParams ({ page := str "0", limit := str " ", status := str "ANY", listing_type := str "both" } : Vals)).status = defaultStatusFilter ∧
    (buildAssetSearchParams ({ limit := str " 0 " } : Vals)).limit = str "0" ∧
    (buildAssetSearchParams ({ listing_type := str "unusual" } : Vals)).status = str "unusual" := by
  have h1 := normalizer_defaults ({ page := str "0", limit := str " ", status := str "ANY", listing_type := str "both" } : Vals)
  have h2 := normalizer_defaults ({ limit := str " 0 " } : Vals)
  have h3 := normalizer_defaults ({ listing_type := str "unusual" } : Vals)
  refine ⟨h1.1 (by decide), h1.2.1 (by decide), h1.2.2.2.1 (by decide), h2.2.2.1 (by decide), ?_⟩
  have := h3.2.2.2.2 (by decide)
  exact this

/-- C10: GetNeighborhoods errors exactly when the cleaned city is empty; a
non-empty city always yields a nil-error list, equal to the mock
neighborhood list on any upstream failure or empty parsed response. -/
theorem getNeighborhoods_error_contract (mockEnabled : Bool) (city : GoString)
    (up : UpOutcome GoVal) :
    ((∃ e, GetNeighborhoods mockEnabled city up = .error e) ↔ cleanAnyValue city = []) ∧
    (cleanAnyValue city ≠ [] → ∃ areas, GetNeighborhoods mockEnabled city up = .ok areas) ∧
    (cleanAnyValue city ≠ [] → mockEnabled = false → isUpFailure up = true →
      GetNeighborhoods mockEnabled city up = .ok (mockNeighborhoods (cleanAnyValue city))) ∧
    (cleanAnyValue city ≠ [] → mockEnabled = false →
      ∀ payload, up = .resp 200 (.ok payload) → parseStringList payload = [] →
        GetNeighborhoods mockEnabled city up = .ok (mockNeighborhoods (cleanAnyValue city))) := by
  by_cases hc : cleanAnyValue city = []
  · refine ⟨⟨fun _ => hc, fun _ => ⟨.cityRequired, ?_⟩⟩, fun h => absurd hc h, fun h => absurd hc h,
      fun h => absurd hc h⟩
    simp [GetNeighborhoods, hc]
  · have hok : ∃ areas, GetNeighborhoods mockEnabled city up = .ok areas := by
      cases mockEnabled with
      | true =>
        refine ⟨mockNeighborhoods (cleanAnyValue city), ?_⟩
        simp [GetNeighborhoods, hc]
      | false =>
        cases up with
        | netErr =>
          refine ⟨mockNeighborhoods (cleanAnyValue city), ?_⟩
          simp [GetNeighborhoods, hc]
        | resp status body =>
          by_cases hs : status = 200
          · subst hs
            cases body with
            | fail =>
              refine ⟨mockNeighborhoods (cleanAnyValue city), ?_⟩
              simp [GetNeighborhoods, hc]
            | ok payload =>
              by_cases hp : (parseStringList payload).length = 0
              · refine ⟨mockNeighborhoods (cleanAnyValue city), ?_⟩
                simp [GetNeighborhoods, hc, hp]
              · refine ⟨parseStringList payload, ?_⟩
                simp [GetNeighborhoods, hc, hp]
          · refine ⟨mockNeighborhoods (cleanAnyValue city), ?_⟩
            simp [GetNeighborhoods, hc, hs]
    refine ⟨⟨?_, fun h => absurd h hc⟩, fun _ => hok, ?_, ?_⟩
    · rintro ⟨e, he⟩
      obtain ⟨areas, ha⟩ := hok
      rw [ha] at he
      cases he
    · intro _ hm hf
      subst hm
      cases up with
      | netErr => simp [GetNeighborhoods, hc]
      | resp status body =>
        cases body with
        | fail =>
          by_cases hs : status = 200 <;> simp [GetNeighborhoods, hc, hs]
        | ok payload =>
          have hs : ¬ status = 200 := by simpa [isUpFailure] using hf
          simp [GetNeighborhoods, hc, hs]
    · intro _ hm payload hup hp
      subst hm
      subst hup
      have hl : (parseStringList payload).length = 0 := by rw [hp]; rfl
      simp [GetNeighborhoods, hc, hl]

/-- Witness for C10: a real city falls back to the mock list on a network
error, and a city of any yields an error. -/
theorem getNeighborhoods_error_contract_witness :
    GetNeighborhoods false (str "Dhaka") .netErr = .ok (mockNeighborhoods (str "Dhaka")) ∧
    (∃ e, GetNeighborhoods false (str "any") .netErr = .error e) := by
  constructor
  · have h := (getNeighborhoods_error_contract false (str "Dhaka") .netErr).2.2.1
      (by decide) rfl rfl
    simpa using h
  · exact (getNeighborhoods_error_contract false (str "any") .netErr).1.mpr (by decide)

/-- C6 counterexample: a single-property fetch for an id that is not in the
mock dataset propagates the network error instead of returning a
mock-derived result with a nil error. -/
theorem getProperty_propagates_unknown_id :
    GetProperty false (str "zzz") .netErr = .error .net := by
  rfl

/-- C6 amended: the city list, neighborhood list (non-empty city) and
top-neighborhoods ranking always substitute the mock answer with a nil error
on any upstream failure; the single-property fetch does so only when the
requested id exists in the mock dataset, and otherwise propagates the
failure as a non-nil error. -/
theorem reads_fall_back_on_failure (up1 up2 : UpOutcome GoVal)
    (up3 : UpOutcome (List NeighborhoodStat)) (up4 : UpOutcome (Option GoObj))
    (city : GoString) (limit : ℤ) (id : GoString) :
    (isUpFailure up1 = true → GetCities false up1 = .ok mockCities) ∧
    (isUpFailure up2 = true → cleanAnyValue city ≠ [] →
      GetNeighborhoods false city up2 = .ok (mockNeighborhoods (cleanAnyValue city))) ∧
    (isUpFailure up3 = true →
      GetTopNeighborhoods false limit city up3 =
        .ok (mockTopNeighborhoods (if limit ≤ 0 then 10 else limit) (cleanAnyValue city))) ∧
    (isUpFailure up4 = true → id ≠ [] →
      (∀ prop, mockPropertyByID id = some prop →
        GetProperty false id up4 = .ok (finalizeProperty prop)) ∧
      (mockPropertyByID id = none → ∃ e, GetProperty false id up4 = .error e)) := by
  refine ⟨?_, ?_, ?_, ?_⟩
  · intro hf
    cases up1 with
    | netErr => rfl
    | resp status body =>
      cases body with
      | fail => by_cases hs : status = 200 <;> simp [GetCities, hs]
      | ok payload =>
        have hs : ¬ status = 200 := by simpa [isUpFailure] using hf
        simp [GetCities, hs]
  · intro hf hc
    exact (getNeighborhoods_error_contract false city up2).2.2.1 hc rfl hf
  · intro hf
    cases up3 with
    | netErr => rfl
    | resp status body =>
      cases body with
      | fail => by_cases hs : status = 200 <;> simp [GetTopNeighborhoods, hs]
      | ok payload =>
        have hs : ¬ status = 200 := by simpa [isUpFailure] using hf
        simp [GetTopNeighborhoods, hs]
  · intro hf hid
    constructor
    · intro prop hm
      cases up4 with
      | netErr => simp [GetProperty, hid, hm]
      | resp status body =>
        cases body with
        | fail => by_cases hs : status = 200 <;> simp [GetProperty, hid, hm, hs]
        | ok payload =>
          have hs : ¬ status = 200 := by simpa [isUpFailure] using hf
          simp [GetProperty, hid, hm, hs]
    · intro hm
      cases up4 with
      | netErr => exact ⟨.net, by simp [GetProperty, hid, hm]⟩
      | resp status body =>
        cases body with
        | fail =>
          by_cases hs : status = 200
          · exact ⟨.decode, by simp [GetProperty, hid, hm, hs]⟩
          · exact ⟨.apiStatus status, by simp [GetProperty, hid, hm, hs]⟩
        | ok payload =>
          have hs : ¬ status = 200 := by simpa [isUpFailure] using hf
          exact ⟨.apiStatus status, by simp [GetProperty, hid, hm, hs]⟩

/-- Witness for C6 at network errors: each read falls back, the mock-known
id is served from the dataset, and the unknown id propagates an error. -/
theorem reads_fall_back_on_failure_witness :
    GetCities false .netErr = .ok mockCities ∧
    GetNeighborhoods false (str "Dhaka") .netErr = .ok (mockNeighborhoods (str "Dhaka")) ∧
    GetTopNeighborhoods false 0 [] .netErr = .ok (mockTopNeighborhoods 10 []) ∧
    (∃ prop, mockPropertyByID (str "MOCK-RES-UTTARA-01") = some prop ∧
      GetProperty false (str "MOCK-RES-UTTARA-01") .netErr = .ok (finalizeProperty prop)) ∧
    (∃ e, GetProperty false (str "zzz") .netErr = .error e) := by
  have h := reads_fall_back_on_failure .netErr .netErr .netErr .netErr (str "Dhaka") 0 (str "MOCK-RES-UTTARA-01")
  have h2 := reads_fall_back_on_failure .netErr .netErr .netErr .netErr (str "zzz") 0 (str "zzz")
  refine ⟨h.1 rfl, ?_, ?_, ?_, ?_⟩
  · have := h.2.1 rfl (by decide)
    simpa using this
  · have := h.2.2.1 rfl
    simpa using this
  · obtain ⟨prop, hp⟩ : ∃ prop, mockPropertyByID (str "MOCK-RES-UTTARA-01") = some prop := ⟨_, rfl⟩
    exact ⟨prop, hp, (h.2.2.2 rfl (by decide)).1 prop hp⟩
  · exact (h2.2.2.2 rfl (by decide)).2 (by decide)

/-- C7 counterexample: with a 900-second token fetched at time 0 the stored
expiry is 810 s, yet a call at 780 s — before the stored expiry — performs a
fresh token request instead of returning the cached token.  Moreover the
claimed formula expiry = t + L - min(2 min, L/10) also fails outright for a
lifetime of 10^10 s: the int64 Duration multiplication wraps negative and
the 15-minute default is stored instead (expiry 810 s, not ~10^10 s). -/
theorem token_refresh_before_stored_expiry :
    (780 * nsPerSecond <
      (getOAuthToken (str "i") (str "s") (str "u") {} 0 (.resp 200 (.ok (str "tok", 900)))).state.tokenExpiry) ∧
    (getOAuthToken (str "i") (str "s") (str "u")
      (getOAuthToken (str "i") (str "s") (str "u") {} 0 (.resp 200 (.ok (str "tok", 900)))).state
      (780 * nsPerSecond) (.resp 200 (.ok (str "tok2", 900)))).requests = 1 ∧
    (getOAuthToken (str "i") (str "s") (str "u")
      (getOAuthToken (str "i") (str "s") (str "u") {} 0 (.resp 200 (.ok (str "tok", 900)))).state
      (780 * nsPerSecond) (.resp 200 (.ok (str "tok2", 900)))).result = .ok (str "tok2") ∧
    (getOAuthToken (str "i") (str "s") (str "u") {} 0
      (.resp 200 (.ok (str "tok", 10000000000)))).state.tokenExpiry = 810 * nsPerSecond := by
  refine ⟨by decide, rfl, rfl, by decide⟩

/-- C7 amended: a successful fetch at time t with positive issued lifetime L
(whose nanosecond duration fits int64, so the Duration multiplication does
not wrap) stores expiry = t + L - min(2 min, L / 10) and makes one request;
a later call returns the cached token with no request only while more than
one minute remains before the stored expiry, and any call at or past that
point performs exactly one request. -/
theorem token_cache_behaviour (clientID clientSecret tokenURL token : GoString)
    (st : TokenCacheState) (t L t2 : ℤ) (up2 : UpOutcome (GoString × ℤ))
    (hid : clientID ≠ []) (hsec : clientSecret ≠ []) (hurl : tokenURL ≠ [])
    (htok : token ≠ []) (hL : 0 < L) (hfit : L * nsPerSecond < 2 ^ 63)
    (hmiss : ¬(st.cachedToken ≠ [] ∧ st.tokenExpiry - t > minuteNs)) :
    (getOAuthToken clientID clientSecret tokenURL st t (.resp 200 (.ok (token, L)))).state.tokenExpiry =
      t + L * nsPerSecond - min (2 * minuteNs) (L * nsPerSecond / 10) ∧
    (getOAuthToken clientID clientSecret tokenURL st t (.resp 200 (.ok (token, L)))).state.cachedToken = token ∧
    (getOAuthToken clientID clientSecret tokenURL st t (.resp 200 (.ok (token, L)))).requests = 1 ∧
    (getOAuthToken clientID clientSecret tokenURL st t (.resp 200 (.ok (token, L)))).result = .ok token ∧
    ((getOAuthToken clientID clientSecret tokenURL st t (.resp 200 (.ok (token, L)))).state.tokenExpiry - t2 > minuteNs →
      getOAuthToken clientID clientSecret tokenURL
        (getOAuthToken clientID clientSecret tokenURL st t (.resp 200 (.ok (token, L)))).state t2 up2 =
        ⟨.ok token, (getOAuthToken clientID clientSecret tokenURL st t (.resp 200 (.ok (token, L)))).state, 0⟩) ∧
    ((getOAuthToken clientID clientSecret tokenURL st t (.resp 200 (.ok (token, L)))).state.tokenExpiry - t2 ≤ minuteNs →
      (getOAuthToken clientID clientSecret tokenURL
        (getOAuthToken clientID clientSecret tokenURL st t (.resp 200 (.ok (token, L)))).state t2 up2).requests = 1) := by
  have hcreds : ¬(clientID = [] ∨ clientSecret = []) := by
    rintro (h | h)
    exacts [hid h, hsec h]
  have hLpos : 0 < L * nsPerSecond := by
    have : (0:ℤ) < nsPerSecond := by decide
    positivity
  have hwrap : wrapInt64 (L * nsPerSecond) = L * nsPerSecond :=
    wrapInt64_eq_self _ (by omega) hfit
  have hLns : ¬ L * nsPerSecond ≤ 0 := by omega
  have hfirst : getOAuthToken clientID clientSecret tokenURL st t (.resp 200 (.ok (token, L))) =
      ⟨.ok token,
       { cachedToken := token,
         tokenExpiry := t + L * nsPerSecond - min (2 * minuteNs) (L * nsPerSecond / 10) },
       1⟩ := by
    unfold getOAuthToken
    rw [if_neg hcreds, if_neg hurl, if_neg hmiss]
    simp only [if_neg (by omega : ¬ (200:ℤ) ≠ 200)]
    rw [if_neg (fun h => htok h)]
    simp only [hwrap, if_neg hLns]
  rw [hfirst]
  refine ⟨rfl, rfl, rfl, rfl, ?_, ?_⟩
  · intro hhit
    unfold getOAuthToken
    rw [if_neg hcreds, if_neg hurl, if_pos ⟨htok, hhit⟩]
  · intro hmiss2
    unfold getOAuthToken
    rw [if_neg hcreds, if_neg hurl, if_neg (by rintro ⟨_, hgt⟩; omega)]
    cases up2 with
    | netErr => rfl
    | resp status body =>
      by_cases hs : status ≠ 200
      · simp [hs]
      · simp only [if_neg hs]
        cases body with
        | fail => rfl
        | ok payload =>
          obtain ⟨tok2, l2⟩ := payload
          by_cases he : tok2 = [] <;> simp [he]

/-- Witness for C7 with a 900-second token fetched at time 0: stored expiry
810 s, a cache hit at 100 s, and a refresh at 800 s. -/
theorem token_cache_behaviour_witness :
    (getOAuthToken (str "i") (str "s") (str "u") {} 0 (.resp 200 (.ok (str "tok", 900)))).state.tokenExpiry =
      810 * nsPerSecond ∧
    getOAuthToken (str "i") (str "s") (str "u")
      (getOAuthToken (str "i") (str "s") (str "u") {} 0 (.resp 200 (.ok (str "tok", 900)))).state
      (100 * nsPerSecond) .netErr =
      ⟨.ok (str "tok"),
       (getOAuthToken (str "i") (str "s") (str "u") {} 0 (.resp 200 (.ok (str "tok", 900)))).state, 0⟩ ∧
    (getOAuthToken (str "i") (str "s") (str "u")
      (getOAuthToken (str "i") (str "s") (str "u") {} 0 (.resp 200 (.ok (str "tok", 900)))).state
      (800 * nsPerSecond) .netErr).requests = 1 := by
  have h := token_cache_behaviour (str "i") (str "s") (str "u") (str "tok") {} 0 900
    (100 * nsPerSecond) .netErr (by decide) (by decide) (by decide) (by decide) (by omega)
    (by decide) (by decide)
  have h2 := token_cache_behaviour (str "i") (str "s") (str "u") (str "tok") {} 0 900
    (800 * nsPerSecond) .netErr (by decide) (by decide) (by decide) (by decide) (by omega)
    (by decide) (by decide)
  refine ⟨?_, ?_, ?_⟩
  · rw [h.1]; decide
  · exact h.2.2.2.2.1 (by rw [h.1]; decide)
  · exact h2.2.2.2.2.2 (by rw [h2.1]; decide)

end DhakaHome
namespace DhakaHome

set_option maxHeartbeats 1000000 in
/-- C8 counterexample: listing_type=any together with listingType=sale does
not normalize like omitting listing_type: alias resolution picks the first
non-empty raw value before any-cleaning, so the any value masks the other
alias. -/
theorem anyToken_masks_alias :
    buildAssetSearchParams ({ listing_type := str "any", listingType := str "sale" } : Vals) ≠
    buildAssetSearchParams ({ listingType := str "sale" } : Vals) := by
  decide

/-- C8 amended: replacing any one raw field value by the any token (any
letter case) normalizes, and mock-searches, exactly like omitting the field —
except for listing_type, where this only holds when the listingType alias is
blank, since the any token masks a simultaneously supplied alias. -/
theorem anyToken_equals_omission (b : Vals) (f : QField) (s : GoString)
    (hs : s ∈ anyVariants)
    (hmask : f = QField.listing_type → goTrim b.listingType = []) :
    buildAssetSearchParams (setQ b f s) = buildAssetSearchParams (setQ b f []) ∧
    getMockSearchResults (buildAssetSearchParams (setQ b f s)) =
      getMockSearchResults (buildAssetSearchParams (setQ b f [])) := by
  obtain ⟨h1, h2, h3, h4, h5⟩ := anyVariant_facts s hs
  have Hclean : cleanAnyValue s = cleanAnyValue ([] : GoString) := by
    rw [h1, cleanAnyValue_nil]
  have Hpff : priceFieldFormatted s = priceFieldFormatted ([] : GoString) := by
    unfold priceFieldFormatted
    rw [h3, parsePriceField_nil]
  have hmain : buildAssetSearchParams (setQ b f s) = buildAssetSearchParams (setQ b f []) := by
    cases f
    case page =>
      apply buildAssetSearchParams_congr
      case hpage =>
        show (if goAtoi (goTrim s) = none ∨ goTrim s = [] ∨ goTrim s = str "0" then str "1" else goTrim s) =
          (if goAtoi (goTrim ([] : GoString)) = none ∨ goTrim ([] : GoString) = [] ∨ goTrim ([] : GoString) = str "0" then str "1" else goTrim ([] : GoString))
        rw [if_pos (Or.inl h2)]
        decide
      all_goals rfl
    case limit =>
      apply buildAssetSearchParams_congr
      case hlimit =>
        show (if goAtoi (goTrim s) = none ∨ goTrim s = [] then str "9" else goTrim s) =
          (if goAtoi (goTrim ([] : GoString)) = none ∨ goTrim ([] : GoString) = [] then str "9" else goTrim ([] : GoString))
        rw [if_pos (Or.inl h2)]
        decide
      all_goals rfl
    case status =>
      apply buildAssetSearchParams_congr
      case hstatus =>
        show (if cleanAnyValue s = [] then (if normalizeListingType (cleanAnyValue (firstNonEmpty [b.listing_type, b.listingType])) ≠ [] then normalizeListingType (cleanAnyValue (firstNonEmpty [b.listing_type, b.listingType])) else defaultStatusFilter) else cleanAnyValue s) =
          (if cleanAnyValue ([] : GoString) = [] then (if normalizeListingType (cleanAnyValue (firstNonEmpty [b.listing_type, b.listingType])) ≠ [] then normalizeListingType (cleanAnyValue (firstNonEmpty [b.listing_type, b.listingType])) else defaultStatusFilter) else cleanAnyValue ([] : GoString))
        rw [h1, cleanAnyValue_nil]
      all_goals rfl
    case listing_type =>
      have hm := hmask rfl
      have e1 : firstNonEmpty [s, b.listingType] = goTrim s := by
        simp only [firstNonEmpty]
        rw [if_pos h4]
      have e2 : firstNonEmpty [([] : GoString), b.listingType] = [] := by
        simp only [firstNonEmpty]
        rw [if_neg (by simp [goTrim_nil]), if_neg (by simp [hm])]
      apply buildAssetSearchParams_congr
      case hstatus =>
        show (if cleanAnyValue b.status = [] then (if normalizeListingType (cleanAnyValue (firstNonEmpty [s, b.listingType])) ≠ [] then normalizeListingType (cleanAnyValue (firstNonEmpty [s, b.listingType])) else defaultStatusFilter) else cleanAnyValue b.status) =
          (if cleanAnyValue b.status = [] then (if normalizeListingType (cleanAnyValue (firstNonEmpty [([] : GoString), b.listingType])) ≠ [] then normalizeListingType (cleanAnyValue (firstNonEmpty [([] : GoString), b.listingType])) else defaultStatusFilter) else cleanAnyValue b.status)
        rw [e1, e2, h5, cleanAnyValue_nil]
      all_goals rfl
    case listingType =>
      have hst : statusParam (setQ b .listingType s) = statusParam (setQ b .listingType []) := by
        show (if cleanAnyValue b.status = [] then (if normalizeListingType (cleanAnyValue (firstNonEmpty [b.listing_type, s])) ≠ [] then normalizeListingType (cleanAnyValue (firstNonEmpty [b.listing_type, s])) else defaultStatusFilter) else cleanAnyValue b.status) =
          (if cleanAnyValue b.status = [] then (if normalizeListingType (cleanAnyValue (firstNonEmpty [b.listing_type, ([] : GoString)])) ≠ [] then normalizeListingType (cleanAnyValue (firstNonEmpty [b.listing_type, ([] : GoString)])) else defaultStatusFilter) else cleanAnyValue b.status)
        by_cases hlt0 : goTrim b.listing_type = []
        · have e1 : firstNonEmpty [b.listing_type, s] = goTrim s := by
            simp only [firstNonEmpty]
            rw [if_neg (by simp [hlt0]), if_pos h4]
          have e2 : firstNonEmpty [b.listing_type, ([] : GoString)] = [] := by
            simp only [firstNonEmpty]
            rw [if_neg (by simp [hlt0]), if_neg (by simp [goTrim_nil])]
          rw [e1, e2, h5, cleanAnyValue_nil]
        · have e1 : firstNonEmpty [b.listing_type, s] = goTrim b.listing_type := by
            simp only [firstNonEmpty]
            rw [if_pos hlt0]
          have e2 : firstNonEmpty [b.listing_type, ([] : GoString)] = goTrim b.listing_type := by
            simp only [firstNonEmpty]
            rw [if_pos hlt0]
          rw [e1, e2]
      apply buildAssetSearchParams_congr
      case hstatus => exact hst
      all_goals rfl
    case q =>
      apply buildAssetSearchParams_congr
      case hq =>
        show (if cleanAnyValue s ≠ [] then cleanAnyValue s else if cleanAnyValue b.location ≠ [] then cleanAnyValue b.location else if cleanAnyValue b.area ≠ [] then cleanAnyValue b.area else []) =
          (if cleanAnyValue ([] : GoString) ≠ [] then cleanAnyValue ([] : GoString) else if cleanAnyValue b.location ≠ [] then cleanAnyValue b.location else if cleanAnyValue b.area ≠ [] then cleanAnyValue b.area else [])
        rw [h1, cleanAnyValue_nil]
      all_goals rfl
    case location =>
      apply buildAssetSearchParams_congr
      case hq =>
        show (if cleanAnyValue b.q ≠ [] then cleanAnyValue b.q else if cleanAnyValue s ≠ [] then cleanAnyValue s else if cleanAnyValue b.area ≠ [] then cleanAnyValue b.area else []) =
          (if cleanAnyValue b.q ≠ [] then cleanAnyValue b.q else if cleanAnyValue ([] : GoString) ≠ [] then cleanAnyValue ([] : GoString) else if cleanAnyValue b.area ≠ [] then cleanAnyValue b.area else [])
        rw [h1, cleanAnyValue_nil]
      case hloc => exact Hclean
      all_goals rfl
    case area =>
      apply buildAssetSearchParams_congr
      case hq =>
        show (if cleanAnyValue b.q ≠ [] then cleanAnyValue b.q else if cleanAnyValue b.location ≠ [] then cleanAnyValue b.location else if cleanAnyValue s ≠ [] then cleanAnyValue s else []) =
          (if cleanAnyValue b.q ≠ [] then cleanAnyValue b.q else if cleanAnyValue b.location ≠ [] then cleanAnyValue b.location else if cleanAnyValue ([] : GoString) ≠ [] then cleanAnyValue ([] : GoString) else [])
        rw [h1, cleanAnyValue_nil]
      case hneigh =>
        show (if cleanAnyValue b.neighborhood ≠ [] then cleanAnyValue b.neighborhood else cleanAnyValue s) =
          (if cleanAnyValue b.neighborhood ≠ [] then cleanAnyValue b.neighborhood else cleanAnyValue ([] : GoString))
        rw [h1, cleanAnyValue_nil]
      all_goals rfl
    case neighborhood =>
      apply buildAssetSearchParams_congr
      case hneigh =>
        show (if cleanAnyValue s ≠ [] then cleanAnyValue s else cleanAnyValue b.area) =
          (if cleanAnyValue ([] : GoString) ≠ [] then cleanAnyValue ([] : GoString) else cleanAnyValue b.area)
        rw [h1, cleanAnyValue_nil]
      all_goals rfl
    case types =>
      apply buildAssetSearchParams_congr
      case htypes =>
        show (if cleanAnyValue s ≠ [] then cleanAnyValue s else normalizeTypeValue (cleanAnyValue b.type)) =
          (if cleanAnyValue ([] : GoString) ≠ [] then cleanAnyValue ([] : GoString) else normalizeTypeValue (cleanAnyValue b.type))
        rw [h1, cleanAnyValue_nil]
      all_goals rfl
    case type =>
      apply buildAssetSearchParams_congr
      case htypes =>
        show (if cleanAnyValue b.types ≠ [] then cleanAnyValue b.types else normalizeTypeValue (cleanAnyValue s)) =
          (if cleanAnyValue b.types ≠ [] then cleanAnyValue b.types else normalizeTypeValue (cleanAnyValue ([] : GoString)))
        rw [h1, cleanAnyValue_nil]
      all_goals rfl
    case price_max =>
      apply buildAssetSearchParams_congr
      case hpmax =>
        show (if cleanAnyValue s ≠ [] then priceFieldOrRaw (cleanAnyValue s) else priceFieldFormatted b.maxPrice) =
          (if cleanAnyValue ([] : GoString) ≠ [] then priceFieldOrRaw (cleanAnyValue ([] : GoString)) else priceFieldFormatted b.maxPrice)
        rw [h1, cleanAnyValue_nil]
      all_goals rfl
    case maxPrice =>
      apply buildAssetSearchParams_congr
      case hpmax =>
        show (if cleanAnyValue b.price_max ≠ [] then priceFieldOrRaw (cleanAnyValue b.price_max) else priceFieldFormatted s) =
          (if cleanAnyValue b.price_max ≠ [] then priceFieldOrRaw (cleanAnyValue b.price_max) else priceFieldFormatted ([] : GoString))
        rw [Hpff]
      all_goals rfl
    case price_min =>
      apply buildAssetSearchParams_congr
      case hpmin =>
        show (if cleanAnyValue s ≠ [] then cleanAnyValue s else priceFieldFormatted b.minPrice) =
          (if cleanAnyValue ([] : GoString) ≠ [] then cleanAnyValue ([] : GoString) else priceFieldFormatted b.minPrice)
        rw [h1, cleanAnyValue_nil]
      all_goals rfl
    case minPrice =>
      apply buildAssetSearchParams_congr
      case hpmin =>
        show (if cleanAnyValue b.price_min ≠ [] then cleanAnyValue b.price_min else priceFieldFormatted s) =
          (if cleanAnyValue b.price_min ≠ [] then cleanAnyValue b.price_min else priceFieldFormatted ([] : GoString))
        rw [Hpff]
      all_goals rfl
    case city =>
      apply buildAssetSearchParams_congr
      case hcity => exact Hclean
      all_goals rfl
    case bedrooms =>
      apply buildAssetSearchParams_congr
      case hbed => exact Hclean
      all_goals rfl
    case bathrooms =>
      apply buildAssetSearchParams_congr
      case hbath => exact Hclean
      all_goals rfl
    case parking =>
      apply buildAssetSearchParams_congr
      case hpark => exact Hclean
      all_goals rfl
    case serviced =>
      apply buildAssetSearchParams_congr
      case hserv => exact Hclean
      all_goals rfl
    case shared_room =>
      apply buildAssetSearchParams_congr
      case hshared => exact Hclean
      all_goals rfl
    case sharedRoom =>
      apply buildAssetSearchParams_congr <;> rfl
    case area_min =>
      apply buildAssetSearchParams_congr
      case hamin => exact Hclean
      all_goals rfl
    case area_max =>
      apply buildAssetSearchParams_congr
      case hamax => exact Hclean
      all_goals rfl
    case furnished =>
      apply buildAssetSearchParams_congr
      case hfurn => exact Hclean
      all_goals rfl
    case subunit_type =>
      apply buildAssetSearchParams_congr
      case hsub => exact Hclean
      all_goals rfl
    case exclude_leased =>
      apply buildAssetSearchParams_congr
      case hexcl => exact Hclean
      all_goals rfl
    case sort_by =>
      apply buildAssetSearchParams_congr
      case hsort => exact Hclean
      all_goals rfl
    case order =>
      apply buildAssetSearchParams_congr
      case horder => exact Hclean
      all_goals rfl
  exact ⟨hmain, by rw [hmain]⟩

/-- Witness for C8 at the q field with value ANY beside a location filter. -/
theorem anyToken_equals_omission_witness :
    buildAssetSearchParams (setQ ({ location := str "Gulshan" } : Vals) .q (str "ANY")) =
      buildAssetSearchParams (setQ ({ location := str "Gulshan" } : Vals) .q []) ∧
    getMockSearchResults (buildAssetSearchParams (setQ ({ location := str "Gulshan" } : Vals) .q (str "ANY"))) =
      getMockSearchResults (buildAssetSearchParams (setQ ({ location := str "Gulshan" } : Vals) .q [])) := by
  exact anyToken_equals_omission ({ location := str "Gulshan" } : Vals) .q (str "ANY")
    (by decide) (by decide)

end DhakaHome

namespace DhakaHome

set_option maxHeartbeats 1000000 in
/-- C3 counterexample: none of the three alias pairs is unconditionally
interchangeable.  type=residential is title-cased while types=residential is
passed verbatim; location=Gulshan feeds the location and q keys while
neighborhood=Gulshan feeds the neighborhood key; price_min=1,500 survives
raw (comma included) while minPrice=1,500 is re-formatted to 1500. -/
theorem alias_not_interchangeable :
    buildAssetSearchParams ({ type := str "residential" } : Vals) ≠
      buildAssetSearchParams ({ types := str "residential" } : Vals) ∧
    buildAssetSearchParams ({ location := str "Gulshan" } : Vals) ≠
      buildAssetSearchParams ({ neighborhood := str "Gulshan" } : Vals) ∧
    buildAssetSearchParams ({ price_min := str "1,500" } : Vals) ≠
      buildAssetSearchParams ({ minPrice := str "1,500" } : Vals) := by
  refine ⟨by decide, by decide, by decide⟩

/-- C3 amended: alias interchange holds only conditionally.
neighborhood and area agree when the q key is already decided by a
non-empty q or location value; price_min and minPrice agree when the value
is a trimmed, non-any, parseable price whose canonical formatting equals the
raw text; type and types agree when type normalization fixes the cleaned
value.  (In each part the query is otherwise identical, with both aliases of
the pair blank in the base query.) -/
theorem alias_equivalence_conditional (b : Vals) (v : GoString) (x : GoFloat) :
    (b.neighborhood = [] → b.area = [] →
      (cleanAnyValue b.q ≠ [] ∨ cleanAnyValue b.location ≠ []) →
      buildAssetSearchParams (setQ b .neighborhood v) = buildAssetSearchParams (setQ b .area v)) ∧
    (b.price_min = [] → b.minPrice = [] → goTrim v = v → isAnyValue v = false →
      parsePriceField v = some x → formatFloatF x = v →
      buildAssetSearchParams (setQ b .price_min v) = buildAssetSearchParams (setQ b .minPrice v)) ∧
    (b.type = [] → b.types = [] → normalizeTypeValue (cleanAnyValue v) = cleanAnyValue v →
      buildAssetSearchParams (setQ b .type v) = buildAssetSearchParams (setQ b .types v)) := by
  refine ⟨?_, ?_, ?_⟩
  · intro hn ha hql
    apply buildAssetSearchParams_congr
    case hq =>
      show (if cleanAnyValue b.q ≠ [] then cleanAnyValue b.q else if cleanAnyValue b.location ≠ [] then cleanAnyValue b.location else if cleanAnyValue b.area ≠ [] then cleanAnyValue b.area else []) =
        (if cleanAnyValue b.q ≠ [] then cleanAnyValue b.q else if cleanAnyValue b.location ≠ [] then cleanAnyValue b.location else if cleanAnyValue v ≠ [] then cleanAnyValue v else [])
      by_cases hq0 : cleanAnyValue b.q ≠ []
      · rw [if_pos hq0, if_pos hq0]
      · rcases hql with h | h
        · exact absurd h hq0
        · rw [if_neg hq0, if_neg hq0, if_pos h, if_pos h]
    case hneigh =>
      show (if cleanAnyValue v ≠ [] then cleanAnyValue v else cleanAnyValue b.area) =
        (if cleanAnyValue b.neighborhood ≠ [] then cleanAnyValue b.neighborhood else cleanAnyValue v)
      rw [hn, ha, cleanAnyValue_nil, if_neg (show ¬(([] : GoString) ≠ []) from by simp)]
      rcases eq_or_ne (cleanAnyValue v) ([] : GoString) with hv | hv
      · rw [if_neg (by simp [hv]), hv]
      · rw [if_pos hv]
    all_goals rfl
  · intro hbm1 hbm2 htrim hany hparse hfmt
    have hcv : cleanAnyValue v = v := by
      show (if isAnyValue (goTrim v) = true then [] else goTrim v) = v
      rw [htrim, hany]
      simp
    have hvne : v ≠ [] := fun h => by
      rw [h, parsePriceField_nil] at hparse
      exact Option.noConfusion hparse
    have hpf : priceFieldFormatted v = v := by
      unfold priceFieldFormatted
      rw [hparse]
      exact hfmt
    apply buildAssetSearchParams_congr
    case hpmin =>
      show (if cleanAnyValue v ≠ [] then cleanAnyValue v else priceFieldFormatted b.minPrice) =
        (if cleanAnyValue b.price_min ≠ [] then cleanAnyValue b.price_min else priceFieldFormatted v)
      rw [hcv, if_pos hvne, hbm1, cleanAnyValue_nil, if_neg (show ¬(([] : GoString) ≠ []) from by simp), hpf]
    all_goals rfl
  · intro hbt1 hbt2 hnorm
    apply buildAssetSearchParams_congr
    case htypes =>
      show (if cleanAnyValue b.types ≠ [] then cleanAnyValue b.types else normalizeTypeValue (cleanAnyValue v)) =
        (if cleanAnyValue v ≠ [] then cleanAnyValue v else normalizeTypeValue (cleanAnyValue b.type))
      rw [hbt1, hbt2, cleanAnyValue_nil, if_neg (by simp), hnorm]
      rcases eq_or_ne (cleanAnyValue v) ([] : GoString) with hv | hv
      · rw [hv, if_neg (by simp)]
        decide
      · rw [if_pos hv]
    all_goals rfl

/-- Witness for C3 at a base query with q=x and the value 20000. -/
theorem alias_equivalence_conditional_witness :
    buildAssetSearchParams (setQ ({ q := str "x" } : Vals) .neighborhood (str "20000")) =
      buildAssetSearchParams (setQ ({ q := str "x" } : Vals) .area (str "20000")) ∧
    buildAssetSearchParams (setQ ({ q := str "x" } : Vals) .price_min (str "20000")) =
      buildAssetSearchParams (setQ ({ q := str "x" } : Vals) .minPrice (str "20000")) ∧
    buildAssetSearchParams (setQ ({ q := str "x" } : Vals) .type (str "20000")) =
      buildAssetSearchParams (setQ ({ q := str "x" } : Vals) .types (str "20000")) := by
  refine ⟨(alias_equivalence_conditional ({ q := str "x" } : Vals) (str "20000") ⟨20000, 0⟩).1 rfl rfl (by decide), (alias_equivalence_conditional ({ q := str "x" } : Vals) (str "20000") ⟨20000, 0⟩).2.1 rfl rfl (by decide) (by decide) (by decide) (by decide), (alias_equivalence_conditional ({ q := str "x" } : Vals) (str "20000") ⟨20000, 0⟩).2.2 rfl rfl (by decide)⟩

end DhakaHome
